import Mathlib

/-!
# The SELECT binder of `sql/stmt/select_stmt.cpp`

A shallow embedding of `wildcard_fields` and `SelectStmt::create`, followed by
theorems about table resolution, attribute resolution and the aggregation
checks.

Conventions of the embedding:

* a `std::string` / `const char*` name is a `String` without embedded NUL, so
  `c_str()` is the identity and `strcmp(a, b) == 0` is `a = b`;
* a pointer that may be null is an `Option`;
* `std::vector` is `List`, `push_back` appends at the end;
* `std::unordered_map<std::string, Table*>` is a list of key/value pairs with
  pairwise distinct keys; `insert` keeps an existing entry;
* a `for` loop over a container is a structural recursion over the list; the
  state of the loop is passed explicitly;
* the output parameter `Stmt*& stmt` is passed in and returned next to the
  return code.
-/

set_option autoImplicit false

namespace MiniSB

/-! ## Types declared outside `select_stmt.cpp` -/

/-- Return codes. The six codes named in `select_stmt.cpp`; `OTHER` stands for
the remaining codes of the enumeration, which only the filter binder can
produce here. -/
inductive RC where
  | SUCCESS
  | INVALID_ARGUMENT
  | SCHEMA_TABLE_NOT_EXIST
  | SCHEMA_FIELD_MISSING
  | NESTED_AGGREGATION
  | AGGREGATION_UNMATCHED
  | OTHER (code : Nat)
  deriving DecidableEq, Repr

/-- Modelled from the spec: the enumeration `AggregationType` is declared
outside `select_stmt.cpp`. The source names `NOTAGG`, `F_COUNT_ALL`,
`COMPOSITE` and `MULATTRS`; the spec lists the function kinds
"count, sum, avg, min, max". -/
inductive AggregationType where
  | NOTAGG
  | F_COUNT_ALL
  | COMPOSITE
  | MULATTRS
  | F_COUNT
  | F_SUM
  | F_AVG
  | F_MIN
  | F_MAX
  deriving DecidableEq, Repr

/-- Modelled from the spec: `FieldMeta` is declared outside `select_stmt.cpp`;
"an opaque handle to a single column's catalog description (name, type ...)".
The column type is kept as a number. -/
structure FieldMeta where
  name : String
  type : Nat
  deriving DecidableEq, Repr

/-- Modelled from the spec: `TableMeta` is declared outside `select_stmt.cpp`.
The fields in declaration order, the first `sys_field_num` of them being the
system fields. -/
structure TableMeta where
  fields : List FieldMeta
  sys_field_num : Nat
  deriving DecidableEq, Repr

/-- Modelled from the spec: `field_count()`. -/
def TableMeta.field_num (m : TableMeta) : Nat := m.fields.length

/-- Modelled from the spec: `field_at(index)`, the overload
`TableMeta::field(int)`. The result is a pointer; an index outside the field
vector designates no field. -/
def TableMeta.field (m : TableMeta) (i : Nat) : Option FieldMeta := m.fields[i]?

/-- Modelled from the spec: `field_by_name(name) -> field-handle-or-absent`,
the overload `TableMeta::field(const char*)`. -/
def TableMeta.field_by_name (m : TableMeta) (name : String) : Option FieldMeta :=
  m.fields.find? (fun f => decide (f.name = name))

/-- Modelled from the spec: `Table` is declared outside `select_stmt.cpp`; a
table handle exposes its name and its metadata. -/
structure Table where
  name : String
  table_meta : TableMeta
  deriving DecidableEq, Repr

/-- The lookup table `std::unordered_map<std::string, Table*>`. -/
abbrev TableMap := List (String × Table)

/-- The member `find` of the lookup table (`none` is `end()`). -/
def TableMap.find : TableMap → String → Option Table
  | [], _ => none
  | (k, v) :: rest, key => if k = key then some v else TableMap.find rest key

/-- The member `insert` of the lookup table: an entry whose key is already
present is left as it is. -/
def TableMap.insert (m : TableMap) (key : String) (v : Table) : TableMap :=
  if (TableMap.find m key).isSome then m else m ++ [(key, v)]

/-- Modelled from the spec: `Db` is declared outside `select_stmt.cpp`; the
catalog "maps a table name to table metadata". -/
structure Db where
  name : String
  opened_tables : List (String × Table)
  deriving DecidableEq, Repr

/-- Modelled from the spec: `find_table(name) -> table-handle-or-absent`. -/
def Db.find_table (db : Db) (table_name : String) : Option Table :=
  TableMap.find db.opened_tables table_name

/-- The class `Field`: the triple built by `Field(table, field_meta, aggr_type)`.
The second component is the pointer the table metadata returned. -/
structure Field where
  table : Table
  field_meta : Option FieldMeta
  aggr_type : AggregationType
  deriving DecidableEq, Repr

/-- Modelled from the spec: `RelAttrSqlNode` is declared outside
`select_stmt.cpp`; an attribute "with optional relation-name qualifier,
attribute name (or wildcard marker), an aggregation-kind tag, and a valid
aggregation shape boolean". -/
structure RelAttrSqlNode where
  relation_name : String
  attribute_name : String
  aggr_type : AggregationType
  ValidAgg : Bool
  deriving DecidableEq, Repr

/-- Modelled from the spec: `SelectSqlNode` is declared outside
`select_stmt.cpp`; the relation names, the attributes and the raw conditions,
the latter of a type `C` this file never inspects. -/
structure SelectSqlNode (C : Type) where
  relations : List String
  attributes : List RelAttrSqlNode
  conditions : List C

/-- The members of `SelectStmt`; `F` is the type of the filter statement. -/
structure SelectStmt (F : Type) where
  tables_ : List Table
  query_fields_ : List Field
  filter_stmt_ : Option F
  is_aggr_ : Bool

/-- The signature of `FilterStmt::create(db, default_table, &table_map,
conditions, condition_num, filter_stmt)`: the return code and the value left
in the output parameter. The function itself is a parameter of the binder. -/
abbrev FilterCreate (C F : Type) := Db → Option Table → TableMap → List C → RC × Option F

/-- The C function `isspace` in the default locale. -/
def isspace (c : Char) : Bool :=
  c = ' ' || c = '\t' || c = '\n' || c = '\x0b' || c = '\x0c' || c = '\r'

/-- Modelled from the spec: `common::is_blank` is declared outside
`select_stmt.cpp`. The spec speaks of an attribute with an "optional
relation-name qualifier": the qualifier is absent when the string holds no
character other than white space. -/
def is_blank (s : String) : Bool := s.data.all isspace

/-! ## `wildcard_fields` -/

/-- The loop `for (int i = sys_field_num; i < field_num; i++)` of
`wildcard_fields`, with `remaining = field_num - i` iterations left. -/
def wildcard_loop (table : Table) (aggr_type : AggregationType) :
    Nat → Nat → List Field → List Field
  | 0, _, field_metas => field_metas
  | remaining + 1, i, field_metas =>
    wildcard_loop table aggr_type remaining (i + 1)
      (field_metas ++ [Field.mk table (table.table_meta.field i) aggr_type])

/-- The function `wildcard_fields(table, field_metas, aggr_type)`; the vector
passed by reference is returned. -/
def wildcard_fields (table : Table) (field_metas : List Field) (aggr_type : AggregationType) :
    List Field :=
  let table_meta := table.table_meta
  let field_num := table_meta.field_num
  if aggr_type = AggregationType.F_COUNT_ALL then
    field_metas ++ [Field.mk table (table_meta.field 0) aggr_type]
  else
    wildcard_loop table aggr_type (field_num - table_meta.sys_field_num)
      table_meta.sys_field_num field_metas

/-- The loop `for (Table* table : tables) wildcard_fields(table, query_fields, aggr_type)`. -/
def wildcard_all (aggr_type : AggregationType) : List Table → List Field → List Field
  | [], query_fields => query_fields
  | table :: rest, query_fields =>
    wildcard_all aggr_type rest (wildcard_fields table query_fields aggr_type)

/-! ## `SelectStmt::create` -/

/-- The first loop of `create` from index `i` on: `tables` and `table_map`
are the locals, the list is `relations[i..]`. The test of `c_str()` against
null never fires and is left out. -/
def collect_tables (db : Db) : List String → List Table → TableMap →
    Except RC (List Table × TableMap)
  | [], tables, table_map => Except.ok (tables, table_map)
  | table_name :: rest, tables, table_map =>
    match db.find_table table_name with
    | none => Except.error RC.SCHEMA_TABLE_NOT_EXIST
    | some table =>
      collect_tables db rest (tables ++ [table]) (TableMap.insert table_map table_name table)

/-- The locals the second loop of `create` updates. -/
structure FieldLoop where
  query_fields : List Field
  IsAgg : Bool
  IsCommon : Bool
  deriving DecidableEq, Repr

/-- One iteration of the second loop of `create`, for the attribute
`relation_attr = select_sql.attributes[i]`. -/
def attr_body (tables : List Table) (table_map : TableMap) (st : FieldLoop)
    (relation_attr : RelAttrSqlNode) : Except RC FieldLoop :=
  let aggr_type := relation_attr.aggr_type
  if !relation_attr.ValidAgg then
    if aggr_type = AggregationType.COMPOSITE then Except.error RC.NESTED_AGGREGATION
    else if aggr_type = AggregationType.MULATTRS then Except.error RC.AGGREGATION_UNMATCHED
    else Except.error RC.INVALID_ARGUMENT
  else
    let IsAgg := if aggr_type ≠ AggregationType.NOTAGG then true else st.IsAgg
    let IsCommon := if aggr_type ≠ AggregationType.NOTAGG then st.IsCommon else true
    if IsAgg && IsCommon then Except.error RC.AGGREGATION_UNMATCHED
    else if is_blank relation_attr.relation_name && relation_attr.attribute_name = "*" then
      if aggr_type ≠ AggregationType.F_COUNT_ALL ∧ aggr_type ≠ AggregationType.NOTAGG then
        Except.error RC.INVALID_ARGUMENT
      else
        Except.ok ⟨wildcard_all aggr_type tables st.query_fields, IsAgg, IsCommon⟩
    else if !is_blank relation_attr.relation_name then
      let table_name := relation_attr.relation_name
      let field_name := relation_attr.attribute_name
      if table_name = "*" then
        if field_name ≠ "*" then Except.error RC.SCHEMA_FIELD_MISSING
        else if aggr_type ≠ AggregationType.F_COUNT_ALL ∧ aggr_type ≠ AggregationType.NOTAGG then
          Except.error RC.INVALID_ARGUMENT
        else
          Except.ok ⟨wildcard_all aggr_type tables st.query_fields, IsAgg, IsCommon⟩
      else
        match TableMap.find table_map table_name with
        | none => Except.error RC.SCHEMA_FIELD_MISSING
        | some table =>
          if field_name = "*" then
            if aggr_type ≠ AggregationType.F_COUNT_ALL ∧ aggr_type ≠ AggregationType.NOTAGG then
              Except.error RC.INVALID_ARGUMENT
            else
              Except.ok ⟨wildcard_fields table st.query_fields aggr_type, IsAgg, IsCommon⟩
          else
            match table.table_meta.field_by_name field_name with
            | none => Except.error RC.SCHEMA_FIELD_MISSING
            | some field_meta =>
              Except.ok ⟨st.query_fields ++ [Field.mk table (some field_meta) aggr_type],
                IsAgg, IsCommon⟩
    else
      match tables with
      | [table] =>
        match table.table_meta.field_by_name relation_attr.attribute_name with
        | none => Except.error RC.SCHEMA_FIELD_MISSING
        | some field_meta =>
          Except.ok ⟨st.query_fields ++ [Field.mk table (some field_meta) aggr_type],
            IsAgg, IsCommon⟩
      | _ => Except.error RC.SCHEMA_FIELD_MISSING

/-- The second loop of `create`, `for (i = size - 1; i >= 0; i--)`: the list
holds the attributes still to visit, in the order of the visit. -/
def collect_query_fields (tables : List Table) (table_map : TableMap) :
    List RelAttrSqlNode → FieldLoop → Except RC FieldLoop
  | [], st => Except.ok st
  | relation_attr :: rest, st =>
    match attr_body tables table_map st relation_attr with
    | Except.error rc => Except.error rc
    | Except.ok st1 => collect_query_fields tables table_map rest st1

/-- The local `default_table` of `create`. -/
def default_table (tables : List Table) : Option Table :=
  match tables with
  | [table] => some table
  | _ => none

/-- The function `SelectStmt::create(db, select_sql, stmt)`. The result is the
return code and the value of `stmt` on return; `filter_create` is
`FilterStmt::create`. -/
def SelectStmt.create {C F : Type} (filter_create : FilterCreate C F) (db : Option Db)
    (select_sql : SelectSqlNode C) (stmt : Option (SelectStmt F)) :
    RC × Option (SelectStmt F) :=
  match db with
  | none => (RC.INVALID_ARGUMENT, stmt)
  | some db =>
    match collect_tables db select_sql.relations [] [] with
    | Except.error rc => (rc, stmt)
    | Except.ok (tables, table_map) =>
      match collect_query_fields tables table_map select_sql.attributes.reverse
          ⟨[], false, false⟩ with
      | Except.error rc => (rc, stmt)
      | Except.ok st =>
        match filter_create db (default_table tables) table_map select_sql.conditions with
        | (rc, filter_stmt) =>
          if rc ≠ RC.SUCCESS then (rc, stmt)
          else (RC.SUCCESS, some ⟨tables, st.query_fields, filter_stmt, st.IsAgg⟩)

/-! ## Reference definitions

Definitions that follow the wording of the specification; the theorems below
compare them with the functions above. -/

/-- The keys present in a lookup table. -/
def TableMap.keys (m : TableMap) : List String := m.map Prod.fst

/-- Follows the spec's words (wildcard expansion helper): for count-all one
Bound Field over the table's first declared field; otherwise one Bound Field
per field from the first user field through the last, in declaration order. -/
def table_expansion (table : Table) (aggr_type : AggregationType) : List Field :=
  if aggr_type = AggregationType.F_COUNT_ALL then
    [Field.mk table table.table_meta.fields.head? aggr_type]
  else
    (table.table_meta.fields.drop table.table_meta.sys_field_num).map
      (fun f => Field.mk table (some f) aggr_type)

/-- Follows the spec's words (field resolver, cases 5 and 6): the table a
named attribute is resolved in, the lookup table for a qualified attribute and
the default table for an unqualified one. -/
def attr_table (tables : List Table) (table_map : TableMap) (a : RelAttrSqlNode) :
    Option Table :=
  if is_blank a.relation_name then default_table tables
  else TableMap.find table_map a.relation_name

/-- Follows the spec's words (field resolver, cases 5 and 6): the one Bound
Field of a named attribute, when its table and its field resolve. -/
def named_field (tables : List Table) (table_map : TableMap) (a : RelAttrSqlNode) :
    Option Field :=
  match attr_table tables table_map a with
  | none => none
  | some table =>
    match table.table_meta.field_by_name a.attribute_name with
    | none => none
    | some field_meta => some (Field.mk table (some field_meta) a.aggr_type)

/-- Follows the spec's words (field resolver, cases 3 to 6): the Bound Fields
one attribute stands for. A wildcard without qualifier (or qualified by `*`)
expands over the tables in table-list order, `t.*` over the table of `t`, a
named attribute gives one field. -/
def attr_expansion (tables : List Table) (table_map : TableMap) (a : RelAttrSqlNode) :
    List Field :=
  if a.attribute_name = "*" then
    if is_blank a.relation_name ∨ a.relation_name = "*" then
      tables.flatMap (fun table => table_expansion table a.aggr_type)
    else
      match TableMap.find table_map a.relation_name with
      | none => []
      | some table => table_expansion table a.aggr_type
  else
    (named_field tables table_map a).toList

/-! ## A sample catalog -/

/-- A table `A(id, x)` with one system field. -/
def tableA : Table := ⟨"A", ⟨[⟨"__trx", 0⟩, ⟨"id", 1⟩, ⟨"x", 2⟩], 1⟩⟩

/-- A table `B(id, y)` with one system field. -/
def tableB : Table := ⟨"B", ⟨[⟨"__trx", 0⟩, ⟨"id", 1⟩, ⟨"y", 3⟩], 1⟩⟩

/-- A catalog holding `A` and `B`. -/
def sample_db : Db := ⟨"sys", [("A", tableA), ("B", tableB)]⟩

/-- A filter binder that accepts every condition list. -/
def filter_accept : FilterCreate Nat Nat :=
  fun _ _ _ conditions => (RC.SUCCESS, some conditions.length)

/-- The query `select * from A, B, A`, which names `A` twice. -/
def query_repeated_table : SelectSqlNode Nat :=
  ⟨["A", "B", "A"], [⟨"", "*", AggregationType.NOTAGG, true⟩], []⟩

/-- The query `select B.y, A.*, A.id from A, B where ...` with one condition. -/
def query_three_attributes : SelectSqlNode Nat :=
  ⟨["A", "B"], [⟨"B", "y", AggregationType.NOTAGG, true⟩,
    ⟨"A", "*", AggregationType.NOTAGG, true⟩,
    ⟨"A", "id", AggregationType.NOTAGG, true⟩], [5]⟩

/-- The query `select B.y, A.x, A.id from A, B`, without wildcard. -/
def query_named_attributes : SelectSqlNode Nat :=
  ⟨["A", "B"], [⟨"B", "y", AggregationType.NOTAGG, true⟩,
    ⟨"A", "x", AggregationType.NOTAGG, true⟩,
    ⟨"A", "id", AggregationType.NOTAGG, true⟩], []⟩

/-- The query `select max(x), count(*) from A`. -/
def query_aggregates : SelectSqlNode Nat :=
  ⟨["A"], [⟨"", "x", AggregationType.F_MAX, true⟩,
    ⟨"", "*", AggregationType.F_COUNT_ALL, true⟩], []⟩

/-- A table `E` without any field. -/
def table_empty : Table := ⟨"E", ⟨[], 0⟩⟩

/-- A catalog holding `A` and the table `E` without fields. -/
def empty_table_db : Db := ⟨"sys", [("A", tableA), ("E", table_empty)]⟩

/-- A filter binder that accepts only when the default table is absent, and
otherwise fails with a code of its own. -/
def filter_reject : FilterCreate Nat Nat :=
  fun _ dt _ conditions =>
    match dt with
    | none => (RC.SUCCESS, some conditions.length)
    | some _ => (RC.OTHER 42, none)

/-- A catalog in which the table `B(id, y)` is stored under the name `*`. -/
def star_db : Db := ⟨"sys", [("A", tableA), ("*", tableB)]⟩

/-! ## Table resolution -/

theorem TableMap.find_isSome_iff (m : TableMap) (key : String) :
    (TableMap.find m key).isSome = true ↔ key ∈ TableMap.keys m := by
  induction m with
  | nil => simp [TableMap.find, TableMap.keys]
  | cons p rest ih =>
    obtain ⟨k, v⟩ := p
    by_cases hk : k = key
    · simp [TableMap.find, TableMap.keys, hk]
    · have hk2 : ¬ key = k := fun h => hk h.symm
      simp only [TableMap.keys] at ih
      simp [TableMap.find, TableMap.keys, hk, hk2, ih]

theorem TableMap.find_eq_none_iff (m : TableMap) (key : String) :
    TableMap.find m key = none ↔ key ∉ TableMap.keys m := by
  rw [← TableMap.find_isSome_iff]
  cases TableMap.find m key <;> simp

theorem TableMap.find_append (m1 m2 : TableMap) (key : String) :
    TableMap.find (m1 ++ m2) key =
      match TableMap.find m1 key with
      | some v => some v
      | none => TableMap.find m2 key := by
  induction m1 with
  | nil => simp [TableMap.find]
  | cons p rest ih =>
    obtain ⟨k, v⟩ := p
    by_cases hk : k = key
    · simp [TableMap.find, hk]
    · simp [TableMap.find, hk, ih]

theorem TableMap.find_insert (m : TableMap) (key : String) (v : Table) (k : String) :
    TableMap.find (TableMap.insert m key v) k =
      match TableMap.find m k with
      | some w => some w
      | none => if key = k then some v else none := by
  unfold TableMap.insert
  by_cases h : (TableMap.find m key).isSome = true
  · rw [if_pos h]
    cases hk : TableMap.find m k with
    | some w => rfl
    | none =>
      have : ¬ key = k := by
        intro e
        rw [e, hk] at h
        simp at h
      simp [this]
  · rw [if_neg h, TableMap.find_append]
    cases hk : TableMap.find m k with
    | some w => rfl
    | none => simp [TableMap.find]

theorem TableMap.keys_insert (m : TableMap) (key : String) (v : Table) (k : String) :
    k ∈ TableMap.keys (TableMap.insert m key v) ↔ k ∈ TableMap.keys m ∨ k = key := by
  unfold TableMap.insert
  by_cases h : (TableMap.find m key).isSome = true
  · rw [if_pos h]
    constructor
    · exact fun hk => Or.inl hk
    · rintro (hk | hk)
      · exact hk
      · rw [hk]
        exact (TableMap.find_isSome_iff m key).1 h
  · rw [if_neg h]
    simp [TableMap.keys]

theorem TableMap.keys_insert_nodup (m : TableMap) (key : String) (v : Table)
    (h : (TableMap.keys m).Nodup) : (TableMap.keys (TableMap.insert m key v)).Nodup := by
  unfold TableMap.insert
  by_cases hs : (TableMap.find m key).isSome = true
  · rw [if_pos hs]
    exact h
  · rw [if_neg hs]
    have hk : key ∉ TableMap.keys m := fun hin => hs ((TableMap.find_isSome_iff m key).2 hin)
    simp only [TableMap.keys] at h hk ⊢
    rw [List.map_append, List.nodup_append]
    refine ⟨h, by simp, ?_⟩
    intro a ha hb
    simp at hb
    exact hk (hb ▸ ha)

theorem TableMap.mem_insert (m : TableMap) (key : String) (v : Table) (p : String × Table)
    (h : p ∈ TableMap.insert m key v) : p ∈ m ∨ p = (key, v) := by
  unfold TableMap.insert at h
  split at h
  · exact Or.inl h
  · simpa using h

theorem collect_tables_error (db : Db) (rels : List String) (tables : List Table)
    (table_map : TableMap) (h : ∃ n ∈ rels, db.find_table n = none) :
    collect_tables db rels tables table_map = Except.error RC.SCHEMA_TABLE_NOT_EXIST := by
  induction rels generalizing tables table_map with
  | nil => simp at h
  | cons n rest ih =>
    unfold collect_tables
    cases hn : db.find_table n with
    | none => rfl
    | some t =>
      obtain ⟨k, hk, hnone⟩ := h
      rcases List.mem_cons.1 hk with rfl | hk2
      · rw [hn] at hnone
        cases hnone
      · exact ih _ _ ⟨k, hk2, hnone⟩

theorem collect_tables_ok (db : Db) (rels : List String) (tables : List Table)
    (table_map : TableMap) (h : ∀ n ∈ rels, db.find_table n ≠ none) :
    ∃ r, collect_tables db rels tables table_map = Except.ok r := by
  induction rels generalizing tables table_map with
  | nil => exact ⟨_, rfl⟩
  | cons n rest ih =>
    unfold collect_tables
    cases hn : db.find_table n with
    | none => exact absurd hn (h n (List.mem_cons_self _ _))
    | some t => exact ih _ _ (fun k hk => h k (List.mem_cons_of_mem _ hk))

theorem collect_tables_inv (db : Db) (rels : List String) (tables : List Table)
    (table_map : TableMap) (ts : List Table) (m : TableMap)
    (h : collect_tables db rels tables table_map = Except.ok (ts, m)) :
    (∀ n ∈ rels, db.find_table n ≠ none) ∧
    ts.map some = tables.map some ++ rels.map db.find_table ∧
    (∀ k, TableMap.find m k =
      match TableMap.find table_map k with
      | some w => some w
      | none => if k ∈ rels then db.find_table k else none) ∧
    (∀ k, k ∈ TableMap.keys m ↔ k ∈ TableMap.keys table_map ∨ k ∈ rels) ∧
    ((TableMap.keys table_map).Nodup → (TableMap.keys m).Nodup) ∧
    (∀ p ∈ m, p ∈ table_map ∨ (p.1 ∈ rels ∧ db.find_table p.1 = some p.2)) := by
  induction rels generalizing tables table_map with
  | nil =>
    simp only [collect_tables, Except.ok.injEq, Prod.mk.injEq] at h
    obtain ⟨rfl, rfl⟩ := h
    refine ⟨by simp, by simp, ?_, by simp, fun hn => hn, fun p hp => Or.inl hp⟩
    intro k
    cases hf : TableMap.find table_map k <;> simp
  | cons n rest ih =>
    unfold collect_tables at h
    cases hn : db.find_table n with
    | none =>
      rw [hn] at h
      cases h
    | some t =>
      rw [hn] at h
      obtain ⟨h1, h2, h3, h4, h5, h6⟩ := ih _ _ h
      refine ⟨?_, ?_, ?_, ?_, ?_, ?_⟩
      · intro k hk
        rcases List.mem_cons.1 hk with rfl | hk2
        · rw [hn]
          simp
        · exact h1 k hk2
      · rw [h2]
        simp [hn]
      · intro k
        rw [h3 k, TableMap.find_insert]
        cases hf : TableMap.find table_map k with
        | some w => rfl
        | none =>
          by_cases hnk : n = k
          · subst hnk
            simp [hn]
          · have hkn : ¬ k = n := fun e => hnk e.symm
            simp [hnk, hkn]
      · intro k
        rw [h4 k, TableMap.keys_insert]
        simp only [List.mem_cons]
        tauto
      · intro hnd
        exact h5 (TableMap.keys_insert_nodup _ _ _ hnd)
      · intro q hq
        rcases h6 q hq with hq1 | ⟨hq1, hq2⟩
        · rcases TableMap.mem_insert _ _ _ _ hq1 with hq3 | hq3
          · exact Or.inl hq3
          · right
            rw [hq3]
            exact ⟨List.mem_cons_self _ _, hn⟩
        · exact Or.inr ⟨List.mem_cons_of_mem _ hq1, hq2⟩

theorem collect_tables_error_code (db : Db) (rels : List String) (tables : List Table)
    (table_map : TableMap) (rc : RC)
    (h : collect_tables db rels tables table_map = Except.error rc) :
    rc = RC.SCHEMA_TABLE_NOT_EXIST := by
  induction rels generalizing tables table_map with
  | nil => simp [collect_tables] at h
  | cons n rest ih =>
    unfold collect_tables at h
    cases hn : db.find_table n with
    | none =>
      rw [hn] at h
      injection h with h
      exact h.symm
    | some t =>
      rw [hn] at h
      exact ih _ _ h

/-! ## Wildcard expansion -/

theorem wildcard_loop_eq (table : Table) (aggr_type : AggregationType) (remaining i : Nat)
    (field_metas : List Field) (h : i + remaining ≤ table.table_meta.fields.length) :
    wildcard_loop table aggr_type remaining i field_metas =
      field_metas ++ ((table.table_meta.fields.drop i).take remaining).map
        (fun f => Field.mk table (some f) aggr_type) := by
  induction remaining generalizing i field_metas with
  | zero => simp [wildcard_loop]
  | succ r ih =>
    have hi : i < table.table_meta.fields.length := by omega
    rw [wildcard_loop, ih (i + 1) _ (by omega)]
    rw [List.drop_eq_getElem_cons hi]
    simp only [List.take_succ_cons, List.map_cons, List.append_assoc, List.singleton_append,
      TableMeta.field, List.getElem?_eq_getElem hi]

theorem wildcard_fields_eq (table : Table) (field_metas : List Field)
    (aggr_type : AggregationType) :
    wildcard_fields table field_metas aggr_type =
      field_metas ++ table_expansion table aggr_type := by
  unfold wildcard_fields table_expansion
  by_cases hk : aggr_type = AggregationType.F_COUNT_ALL
  · simp [hk, TableMeta.field, List.head?_eq_getElem?]
  · simp only [hk, if_false]
    by_cases hs : table.table_meta.sys_field_num ≤ table.table_meta.fields.length
    · rw [wildcard_loop_eq]
      · congr 2
        apply List.take_of_length_le
        simp [TableMeta.field_num]
      · simp only [TableMeta.field_num]
        omega
    · have h0 : table.table_meta.field_num - table.table_meta.sys_field_num = 0 := by
        simp only [TableMeta.field_num]
        omega
      rw [h0, wildcard_loop, List.drop_of_length_le (by omega)]
      simp

theorem wildcard_all_eq (aggr_type : AggregationType) (tables : List Table)
    (query_fields : List Field) :
    wildcard_all aggr_type tables query_fields =
      query_fields ++ tables.flatMap (fun table => table_expansion table aggr_type) := by
  induction tables generalizing query_fields with
  | nil => simp [wildcard_all]
  | cons t rest ih =>
    rw [wildcard_all, ih, wildcard_fields_eq]
    simp

/-! ## The attribute loop -/

theorem attr_body_ok (tables : List Table) (table_map : TableMap) (st st1 : FieldLoop)
    (a : RelAttrSqlNode) (h : attr_body tables table_map st a = Except.ok st1) :
    a.ValidAgg = true ∧
    st1.IsAgg = (decide (a.aggr_type ≠ AggregationType.NOTAGG) || st.IsAgg) ∧
    st1.IsCommon = (decide (a.aggr_type = AggregationType.NOTAGG) || st.IsCommon) ∧
    (st1.IsAgg && st1.IsCommon) = false ∧
    st1.query_fields = st.query_fields ++ attr_expansion tables table_map a := by
  unfold attr_body at h
  simp only [] at h
  repeat' (first | contradiction | split at h)
  all_goals (injection h with h; subst h)
  all_goals simp_all [attr_expansion, named_field, attr_table, wildcard_all_eq,
    wildcard_fields_eq, default_table]

theorem attr_body_error (tables : List Table) (table_map : TableMap) (st : FieldLoop)
    (a : RelAttrSqlNode) (rc : RC) (h : attr_body tables table_map st a = Except.error rc) :
    rc = RC.INVALID_ARGUMENT ∨ rc = RC.SCHEMA_FIELD_MISSING ∨ rc = RC.NESTED_AGGREGATION ∨
      rc = RC.AGGREGATION_UNMATCHED := by
  unfold attr_body at h
  simp only [] at h
  repeat' (first | contradiction | split at h)
  all_goals (injection h with h; subst h; simp)

theorem attr_body_invalid_shape (tables : List Table) (table_map : TableMap) (st : FieldLoop)
    (a : RelAttrSqlNode) (h : a.ValidAgg = false) :
    attr_body tables table_map st a =
      if a.aggr_type = AggregationType.COMPOSITE then Except.error RC.NESTED_AGGREGATION
      else if a.aggr_type = AggregationType.MULATTRS then Except.error RC.AGGREGATION_UNMATCHED
      else Except.error RC.INVALID_ARGUMENT := by
  unfold attr_body
  simp [h]

theorem attr_body_mixed (tables : List Table) (table_map : TableMap) (st : FieldLoop)
    (a : RelAttrSqlNode) (hv : a.ValidAgg = true)
    (hmix : (a.aggr_type ≠ AggregationType.NOTAGG ∧ st.IsCommon = true) ∨
      (a.aggr_type = AggregationType.NOTAGG ∧ st.IsAgg = true)) :
    attr_body tables table_map st a = Except.error RC.AGGREGATION_UNMATCHED := by
  unfold attr_body
  rcases hmix with ⟨h1, h2⟩ | ⟨h1, h2⟩
  · simp [hv, h1, h2]
  · simp [hv, h1, h2]

theorem collect_query_fields_append (tables : List Table) (table_map : TableMap)
    (l1 l2 : List RelAttrSqlNode) (st : FieldLoop) :
    collect_query_fields tables table_map (l1 ++ l2) st =
      match collect_query_fields tables table_map l1 st with
      | Except.error rc => Except.error rc
      | Except.ok st1 => collect_query_fields tables table_map l2 st1 := by
  induction l1 generalizing st with
  | nil => simp [collect_query_fields]
  | cons a rest ih =>
    simp only [List.cons_append, collect_query_fields]
    cases attr_body tables table_map st a with
    | error rc => rfl
    | ok st1 => exact ih st1

theorem collect_query_fields_ok (tables : List Table) (table_map : TableMap)
    (attrs : List RelAttrSqlNode) (st st1 : FieldLoop)
    (h : collect_query_fields tables table_map attrs st = Except.ok st1) :
    (∀ a ∈ attrs, a.ValidAgg = true) ∧
    (st1.IsAgg = true ↔
      st.IsAgg = true ∨ ∃ a ∈ attrs, a.aggr_type ≠ AggregationType.NOTAGG) ∧
    (st1.IsCommon = true ↔
      st.IsCommon = true ∨ ∃ a ∈ attrs, a.aggr_type = AggregationType.NOTAGG) ∧
    (attrs ≠ [] → (st1.IsAgg && st1.IsCommon) = false) ∧
    st1.query_fields =
      st.query_fields ++ attrs.flatMap (fun a => attr_expansion tables table_map a) := by
  induction attrs generalizing st with
  | nil =>
    simp only [collect_query_fields, Except.ok.injEq] at h
    subst h
    simp
  | cons a rest ih =>
    simp only [collect_query_fields] at h
    cases hb : attr_body tables table_map st a with
    | error rc =>
      rw [hb] at h
      cases h
    | ok st2 =>
      rw [hb] at h
      obtain ⟨b1, b2, b3, b4, b5⟩ := attr_body_ok _ _ _ _ _ hb
      obtain ⟨c1, c2, c3, c4, c5⟩ := ih st2 h
      refine ⟨?_, ?_, ?_, ?_, ?_⟩
      · intro x hx
        rcases List.mem_cons.1 hx with rfl | hx2
        · exact b1
        · exact c1 x hx2
      · rw [c2, b2]
        simp only [Bool.or_eq_true, decide_eq_true_eq, List.mem_cons, exists_eq_or_imp]
        rw [or_assoc, or_left_comm]
      · rw [c3, b3]
        simp only [Bool.or_eq_true, decide_eq_true_eq, List.mem_cons, exists_eq_or_imp]
        rw [or_assoc, or_left_comm]
      · intro _
        by_cases hr : rest = []
        · subst hr
          simp only [collect_query_fields, Except.ok.injEq] at h
          subst h
          exact b4
        · exact c4 hr
      · rw [c5, b5]
        simp

theorem collect_query_fields_error (tables : List Table) (table_map : TableMap)
    (attrs : List RelAttrSqlNode) (st : FieldLoop) (rc : RC)
    (h : collect_query_fields tables table_map attrs st = Except.error rc) :
    rc = RC.INVALID_ARGUMENT ∨ rc = RC.SCHEMA_FIELD_MISSING ∨ rc = RC.NESTED_AGGREGATION ∨
      rc = RC.AGGREGATION_UNMATCHED := by
  induction attrs generalizing st with
  | nil => simp [collect_query_fields] at h
  | cons a rest ih =>
    simp only [collect_query_fields] at h
    cases hb : attr_body tables table_map st a with
    | error rc2 =>
      rw [hb] at h
      injection h with h
      subst h
      exact attr_body_error _ _ _ _ _ hb
    | ok st2 =>
      rw [hb] at h
      exact ih st2 h

/-! ## The stages of `create` -/

theorem create_tables_error {C F : Type} (fc : FilterCreate C F) (db : Db)
    (sql : SelectSqlNode C) (stmt0 : Option (SelectStmt F)) (rc : RC)
    (h : collect_tables db sql.relations [] [] = Except.error rc) :
    SelectStmt.create fc (some db) sql stmt0 = (rc, stmt0) := by
  simp only [SelectStmt.create, h]

theorem create_fields_error {C F : Type} (fc : FilterCreate C F) (db : Db)
    (sql : SelectSqlNode C) (stmt0 : Option (SelectStmt F)) (tables : List Table)
    (table_map : TableMap) (rc : RC)
    (ht : collect_tables db sql.relations [] [] = Except.ok (tables, table_map))
    (hf : collect_query_fields tables table_map sql.attributes.reverse ⟨[], false, false⟩ =
      Except.error rc) :
    SelectStmt.create fc (some db) sql stmt0 = (rc, stmt0) := by
  simp only [SelectStmt.create, ht, hf]

theorem create_fields_ok {C F : Type} (fc : FilterCreate C F) (db : Db)
    (sql : SelectSqlNode C) (stmt0 : Option (SelectStmt F)) (tables : List Table)
    (table_map : TableMap) (st : FieldLoop)
    (ht : collect_tables db sql.relations [] [] = Except.ok (tables, table_map))
    (hf : collect_query_fields tables table_map sql.attributes.reverse ⟨[], false, false⟩ =
      Except.ok st) :
    SelectStmt.create fc (some db) sql stmt0 =
      if (fc db (default_table tables) table_map sql.conditions).1 ≠ RC.SUCCESS then
        ((fc db (default_table tables) table_map sql.conditions).1, stmt0)
      else
        (RC.SUCCESS, some ⟨tables, st.query_fields,
          (fc db (default_table tables) table_map sql.conditions).2, st.IsAgg⟩) := by
  simp only [SelectStmt.create, ht, hf]

theorem create_success_inv {C F : Type} (fc : FilterCreate C F) (db : Option Db)
    (sql : SelectSqlNode C) (stmt0 : Option (SelectStmt F))
    (h : (SelectStmt.create fc db sql stmt0).1 = RC.SUCCESS) :
    ∃ d tables table_map st filter_stmt,
      db = some d ∧
      collect_tables d sql.relations [] [] = Except.ok (tables, table_map) ∧
      collect_query_fields tables table_map sql.attributes.reverse ⟨[], false, false⟩ =
        Except.ok st ∧
      fc d (default_table tables) table_map sql.conditions = (RC.SUCCESS, filter_stmt) ∧
      (SelectStmt.create fc db sql stmt0).2 =
        some ⟨tables, st.query_fields, filter_stmt, st.IsAgg⟩ := by
  cases db with
  | none => simp [SelectStmt.create] at h
  | some d =>
    cases ht : collect_tables d sql.relations [] [] with
    | error rc =>
      rw [create_tables_error fc d sql stmt0 rc ht] at h
      have hrc := collect_tables_error_code d sql.relations [] [] rc ht
      simp only at h
      rw [h] at hrc
      cases hrc
    | ok r =>
      obtain ⟨tables, table_map⟩ := r
      cases hf : collect_query_fields tables table_map sql.attributes.reverse
          ⟨[], false, false⟩ with
      | error rc =>
        rw [create_fields_error fc d sql stmt0 tables table_map rc ht hf] at h
        simp only at h
        have hrc := collect_query_fields_error _ _ _ _ _ hf
        rw [h] at hrc
        simp at hrc
      | ok st =>
        rw [create_fields_ok fc d sql stmt0 tables table_map st ht hf] at h ⊢
        by_cases hs : (fc d (default_table tables) table_map sql.conditions).1 = RC.SUCCESS
        · refine ⟨d, tables, table_map, st, (fc d (default_table tables) table_map
            sql.conditions).2, rfl, ht, hf, ?_, ?_⟩
          · rw [← hs]
          · simp [hs]
        · simp [hs] at h

theorem collect_query_fields_single (tables : List Table) (table_map : TableMap)
    (a : RelAttrSqlNode) (st : FieldLoop) :
    collect_query_fields tables table_map [a].reverse st =
      attr_body tables table_map st a := by
  simp only [List.reverse_cons, List.reverse_nil, List.nil_append, collect_query_fields]
  cases attr_body tables table_map st a <;> rfl

theorem attr_body_ok_named (tables : List Table) (table_map : TableMap) (st st1 : FieldLoop)
    (a : RelAttrSqlNode) (h : attr_body tables table_map st a = Except.ok st1)
    (hname : a.attribute_name ≠ "*") :
    ∃ f, named_field tables table_map a = some f := by
  unfold attr_body at h
  simp only [] at h
  repeat' (first | contradiction | split at h)
  all_goals simp_all [named_field, attr_table, default_table]

theorem collect_query_fields_ok_named (tables : List Table) (table_map : TableMap)
    (attrs : List RelAttrSqlNode) (st st1 : FieldLoop)
    (h : collect_query_fields tables table_map attrs st = Except.ok st1) :
    ∀ a ∈ attrs, a.attribute_name ≠ "*" → ∃ f, named_field tables table_map a = some f := by
  induction attrs generalizing st with
  | nil => simp
  | cons a rest ih =>
    simp only [collect_query_fields] at h
    cases hb : attr_body tables table_map st a with
    | error rc =>
      rw [hb] at h
      cases h
    | ok st2 =>
      rw [hb] at h
      intro x hx hname
      rcases List.mem_cons.1 hx with rfl | hx2
      · exact attr_body_ok_named _ _ _ _ _ hb hname
      · exact ih st2 h x hx2 hname

theorem flatMap_named (tables : List Table) (table_map : TableMap)
    (attrs : List RelAttrSqlNode)
    (h : ∀ a ∈ attrs, a.attribute_name ≠ "*" ∧ ∃ f, named_field tables table_map a = some f) :
    (attrs.flatMap (fun a => attr_expansion tables table_map a)).map some =
      attrs.map (named_field tables table_map) := by
  induction attrs with
  | nil => rfl
  | cons a rest ih =>
    obtain ⟨hname, f, hf⟩ := h a (List.mem_cons_self _ _)
    rw [List.flatMap_cons, List.map_append, ih (fun x hx => h x (List.mem_cons_of_mem _ hx))]
    simp [attr_expansion, hname, hf]

/-! ## Aggregation checks (C1, C2) -/

/-- C1, counterexample: `select max(x), nosuch from A` holds an aggregate and a
plain attribute, `A` is in the catalog, and `create` returns
SCHEMA_FIELD_MISSING, not AGGREGATION_UNMATCHED: the plain attribute is visited
first and its field lookup fails before the aggregate is seen. Likewise
`select max(x), id from A` with the shape flag of `max(x)` off returns
INVALID_ARGUMENT. -/
theorem mixed_attributes_other_error_first :
    (∃ a ∈ [RelAttrSqlNode.mk "" "x" AggregationType.F_MAX true,
        RelAttrSqlNode.mk "" "nosuch" AggregationType.NOTAGG true],
      a.aggr_type ≠ AggregationType.NOTAGG) ∧
    (∃ a ∈ [RelAttrSqlNode.mk "" "x" AggregationType.F_MAX true,
        RelAttrSqlNode.mk "" "nosuch" AggregationType.NOTAGG true],
      a.aggr_type = AggregationType.NOTAGG) ∧
    (∀ n ∈ ["A"], sample_db.find_table n ≠ none) ∧
    SelectStmt.create filter_accept (some sample_db)
      ⟨["A"], [⟨"", "x", AggregationType.F_MAX, true⟩,
        ⟨"", "nosuch", AggregationType.NOTAGG, true⟩], []⟩ none =
      (RC.SCHEMA_FIELD_MISSING, none) ∧
    SelectStmt.create filter_accept (some sample_db)
      ⟨["A"], [⟨"", "x", AggregationType.F_MAX, false⟩,
        ⟨"", "id", AggregationType.NOTAGG, true⟩], []⟩ none =
      (RC.INVALID_ARGUMENT, none) := by
  refine ⟨?_, ?_, ?_, ?_, ?_⟩
  · exact ⟨_, List.mem_cons_self _ _, by decide⟩
  · exact ⟨_, List.mem_cons_of_mem _ (List.mem_cons_self _ _), by decide⟩
  · decide
  · rfl
  · rfl

/-- C1 (amended): let the FROM list resolve to `tables` and `table_map`, and
let the attribute list be `P ++ a :: S` where the attributes `S` (those after
`a` in source order, visited before it) pass the attribute loop on their own,
`a` has a valid shape, and some attribute `b` of `S` is of the other class than
`a` (one aggregate, one plain). Then `create` returns AGGREGATION_UNMATCHED and
leaves `stmt` as it was, whatever the attributes `P` are. -/
theorem create_mixed_aggregation_unmatched {C F : Type} (fc : FilterCreate C F) (db : Db)
    (sql : SelectSqlNode C) (stmt0 : Option (SelectStmt F)) (tables : List Table)
    (table_map : TableMap) (P S : List RelAttrSqlNode) (a b : RelAttrSqlNode)
    (st : FieldLoop)
    (ht : collect_tables db sql.relations [] [] = Except.ok (tables, table_map))
    (hsplit : sql.attributes = P ++ a :: S)
    (hS : collect_query_fields tables table_map S.reverse ⟨[], false, false⟩ = Except.ok st)
    (hv : a.ValidAgg = true)
    (hb : b ∈ S)
    (hmix : (a.aggr_type ≠ AggregationType.NOTAGG ∧ b.aggr_type = AggregationType.NOTAGG) ∨
      (a.aggr_type = AggregationType.NOTAGG ∧ b.aggr_type ≠ AggregationType.NOTAGG)) :
    SelectStmt.create fc (some db) sql stmt0 = (RC.AGGREGATION_UNMATCHED, stmt0) := by
  apply create_fields_error fc db sql stmt0 tables table_map _ ht
  obtain ⟨-, hagg, hcommon, -, -⟩ := collect_query_fields_ok _ _ _ _ _ hS
  have hbr : b ∈ S.reverse := List.mem_reverse.2 hb
  have hbody : attr_body tables table_map st a = Except.error RC.AGGREGATION_UNMATCHED := by
    apply attr_body_mixed _ _ _ _ hv
    rcases hmix with ⟨h1, h2⟩ | ⟨h1, h2⟩
    · exact Or.inl ⟨h1, hcommon.2 (Or.inr ⟨b, hbr, h2⟩)⟩
    · exact Or.inr ⟨h1, hagg.2 (Or.inr ⟨b, hbr, h2⟩)⟩
  rw [hsplit, List.reverse_append, List.reverse_cons, List.append_assoc,
    collect_query_fields_append, hS]
  simp only [List.singleton_append, collect_query_fields, hbody]

/-- C1, witness: `select nosuch, max(x), id from A`. -/
theorem create_mixed_aggregation_unmatched_witness :
    SelectStmt.create filter_accept (some sample_db)
      ⟨["A"], [⟨"", "nosuch", AggregationType.NOTAGG, true⟩,
        ⟨"", "x", AggregationType.F_MAX, true⟩,
        ⟨"", "id", AggregationType.NOTAGG, true⟩], []⟩ none =
      (RC.AGGREGATION_UNMATCHED, none) :=
  create_mixed_aggregation_unmatched filter_accept sample_db _ none [tableA] [("A", tableA)]
    [⟨"", "nosuch", AggregationType.NOTAGG, true⟩] [⟨"", "id", AggregationType.NOTAGG, true⟩]
    ⟨"", "x", AggregationType.F_MAX, true⟩ ⟨"", "id", AggregationType.NOTAGG, true⟩
    ⟨[⟨tableA, some ⟨"id", 1⟩, AggregationType.NOTAGG⟩], false, true⟩
    rfl rfl rfl rfl (List.mem_cons_self _ _) (Or.inl ⟨by decide, rfl⟩)

/-- C2, counterexample: in `select max(min(x)), nosuch from A` the first
attribute is a nested aggregation (kind COMPOSITE, flagged invalid), `A` is in
the catalog, and `create` returns SCHEMA_FIELD_MISSING, not NESTED_AGGREGATION:
the last attribute is visited first and its field lookup fails. And an
attribute of kind COMPOSITE whose shape flag is on binds like any other
aggregate. -/
theorem nested_aggregation_other_outcome :
    (∀ n ∈ ["A"], sample_db.find_table n ≠ none) ∧
    SelectStmt.create filter_accept (some sample_db)
      ⟨["A"], [⟨"", "x", AggregationType.COMPOSITE, false⟩,
        ⟨"", "nosuch", AggregationType.NOTAGG, true⟩], []⟩ none =
      (RC.SCHEMA_FIELD_MISSING, none) ∧
    (SelectStmt.create filter_accept (some sample_db)
      ⟨["A"], [⟨"", "x", AggregationType.COMPOSITE, true⟩], []⟩ none).1 = RC.SUCCESS := by
  refine ⟨?_, ?_, ?_⟩
  · decide
  · rfl
  · rfl

/-- C2 (amended): let the FROM list resolve to `tables` and `table_map`, and
let the attribute list be `P ++ a :: S` where `a` is flagged as an invalid
shape with kind COMPOSITE and the attributes `S` (those after `a` in source
order, visited before it) pass the attribute loop on their own. Then `create`
returns NESTED_AGGREGATION and leaves `stmt` as it was, whatever the
attributes `P` are. -/
theorem create_nested_aggregation {C F : Type} (fc : FilterCreate C F) (db : Db)
    (sql : SelectSqlNode C) (stmt0 : Option (SelectStmt F)) (tables : List Table)
    (table_map : TableMap) (P S : List RelAttrSqlNode) (a : RelAttrSqlNode) (st : FieldLoop)
    (ht : collect_tables db sql.relations [] [] = Except.ok (tables, table_map))
    (hsplit : sql.attributes = P ++ a :: S)
    (hS : collect_query_fields tables table_map S.reverse ⟨[], false, false⟩ = Except.ok st)
    (hv : a.ValidAgg = false)
    (hk : a.aggr_type = AggregationType.COMPOSITE) :
    SelectStmt.create fc (some db) sql stmt0 = (RC.NESTED_AGGREGATION, stmt0) := by
  apply create_fields_error fc db sql stmt0 tables table_map _ ht
  have hbody : attr_body tables table_map st a = Except.error RC.NESTED_AGGREGATION := by
    rw [attr_body_invalid_shape _ _ _ _ hv, if_pos hk]
  rw [hsplit, List.reverse_append, List.reverse_cons, List.append_assoc,
    collect_query_fields_append, hS]
  simp only [List.singleton_append, collect_query_fields, hbody]

/-- C2, witness: `select nosuch, max(min(x)), id from A`. -/
theorem create_nested_aggregation_witness :
    SelectStmt.create filter_accept (some sample_db)
      ⟨["A"], [⟨"", "nosuch", AggregationType.NOTAGG, true⟩,
        ⟨"", "x", AggregationType.COMPOSITE, false⟩,
        ⟨"", "id", AggregationType.NOTAGG, true⟩], []⟩ none =
      (RC.NESTED_AGGREGATION, none) :=
  create_nested_aggregation filter_accept sample_db _ none [tableA] [("A", tableA)]
    [⟨"", "nosuch", AggregationType.NOTAGG, true⟩] [⟨"", "id", AggregationType.NOTAGG, true⟩]
    ⟨"", "x", AggregationType.COMPOSITE, false⟩
    ⟨[⟨tableA, some ⟨"id", 1⟩, AggregationType.NOTAGG⟩], false, true⟩
    rfl rfl rfl rfl rfl

/-! ## Table resolution (C3, C4) -/

/-- C3: with a catalog present, if some name of the FROM list is absent from
the catalog, `create` returns SCHEMA_TABLE_NOT_EXIST and leaves `stmt` as it
was (no statement is produced), whatever the attribute list, the condition
list and the filter binder are. -/
theorem create_table_not_exist {C F : Type} (fc : FilterCreate C F) (db : Db)
    (sql : SelectSqlNode C) (stmt0 : Option (SelectStmt F))
    (h : ∃ n ∈ sql.relations, db.find_table n = none) :
    SelectStmt.create fc (some db) sql stmt0 = (RC.SCHEMA_TABLE_NOT_EXIST, stmt0) :=
  create_tables_error fc db sql stmt0 _ (collect_tables_error db sql.relations [] [] h)

/-- C3, witness: `select max(min(x)), nosuch from A, Z where ...`; the table
`Z` is unknown, and so is the error, although both attributes are in error
too. -/
theorem create_table_not_exist_witness :
    SelectStmt.create filter_accept (some sample_db)
      ⟨["A", "Z"], [⟨"", "x", AggregationType.COMPOSITE, false⟩,
        ⟨"", "nosuch", AggregationType.NOTAGG, true⟩], [7]⟩ none =
      (RC.SCHEMA_TABLE_NOT_EXIST, none) :=
  create_table_not_exist filter_accept sample_db _ none
    ⟨"Z", List.mem_cons_of_mem _ (List.mem_cons_self _ _), rfl⟩

/-- C4: when `create` returns SUCCESS, a statement is assigned; the first loop
ended with that statement's table list and a lookup table `table_map` such
that: the table list has the length of the FROM list, its i-th element is the
table the catalog returns for the i-th FROM name (so order and repetitions are
kept), the keys of `table_map` are pairwise distinct and are exactly the FROM
names, and `table_map` maps each of them to the catalog's table of that name
(and holds no other entry). -/
theorem create_success_tables {C F : Type} (fc : FilterCreate C F) (db : Option Db)
    (sql : SelectSqlNode C) (stmt0 : Option (SelectStmt F))
    (h : (SelectStmt.create fc db sql stmt0).1 = RC.SUCCESS) :
    ∃ d s table_map,
      db = some d ∧
      (SelectStmt.create fc db sql stmt0).2 = some s ∧
      collect_tables d sql.relations [] [] = Except.ok (s.tables_, table_map) ∧
      s.tables_.length = sql.relations.length ∧
      (∀ i, i < sql.relations.length →
        ∃ n, sql.relations[i]? = some n ∧ s.tables_[i]? = d.find_table n ∧
          d.find_table n ≠ none) ∧
      s.tables_.map some = sql.relations.map d.find_table ∧
      (TableMap.keys table_map).Nodup ∧
      (∀ n, n ∈ TableMap.keys table_map ↔ n ∈ sql.relations) ∧
      (∀ n ∈ sql.relations, TableMap.find table_map n = d.find_table n) ∧
      (∀ n t, (n, t) ∈ table_map → n ∈ sql.relations ∧ d.find_table n = some t) := by
  obtain ⟨d, tables, table_map, st, fs, hdb, ht, -, -, hs⟩ := create_success_inv fc db sql stmt0 h
  obtain ⟨h1, h2, h3, h4, h5, h6⟩ := collect_tables_inv d sql.relations [] [] tables table_map ht
  have hmap : tables.map some = sql.relations.map d.find_table := by simpa using h2
  have hlen : tables.length = sql.relations.length := by
    have := congrArg List.length hmap
    simpa using this
  refine ⟨d, _, table_map, hdb, hs, ht, hlen, ?_, hmap, ?_, ?_, ?_, ?_⟩
  · intro i hi
    refine ⟨sql.relations[i], List.getElem?_eq_getElem hi, ?_, h1 _ (List.getElem_mem hi)⟩
    have := congrArg (fun l => l[i]?) hmap
    simp only [List.getElem?_map, List.getElem?_eq_getElem hi] at this
    show tables[i]? = d.find_table sql.relations[i]
    cases hti : tables[i]? with
    | none =>
      rw [hti] at this
      cases this
    | some t =>
      rw [hti] at this
      simpa using this
  · exact h5 (by simp [TableMap.keys])
  · intro n
    rw [h4 n]
    simp [TableMap.keys]
  · intro n hn
    rw [h3 n]
    simp [TableMap.find, hn]
  · intro n t hnt
    rcases h6 (n, t) hnt with hq | hq
    · simp at hq
    · exact hq

/-- C4, witness: `select * from A, B, A` binds the table list `A, B, A` and a
lookup table with the two keys `A` and `B`. -/
theorem create_success_tables_witness :
    (SelectStmt.create filter_accept (some sample_db) query_repeated_table none).1 =
      RC.SUCCESS ∧
    collect_tables sample_db query_repeated_table.relations [] [] =
      Except.ok ([tableA, tableB, tableA], [("A", tableA), ("B", tableB)]) ∧
    ∃ d s table_map,
      some sample_db = some d ∧
      (SelectStmt.create filter_accept (some sample_db) query_repeated_table none).2 = some s ∧
      collect_tables d query_repeated_table.relations [] [] =
        Except.ok (s.tables_, table_map) ∧
      s.tables_.length = query_repeated_table.relations.length ∧
      (∀ i, i < query_repeated_table.relations.length →
        ∃ n, query_repeated_table.relations[i]? = some n ∧
          s.tables_[i]? = d.find_table n ∧ d.find_table n ≠ none) ∧
      s.tables_.map some = query_repeated_table.relations.map d.find_table ∧
      (TableMap.keys table_map).Nodup ∧
      (∀ n, n ∈ TableMap.keys table_map ↔ n ∈ query_repeated_table.relations) ∧
      (∀ n ∈ query_repeated_table.relations, TableMap.find table_map n = d.find_table n) ∧
      (∀ n t, (n, t) ∈ table_map →
        n ∈ query_repeated_table.relations ∧ d.find_table n = some t) :=
  ⟨rfl, rfl,
    create_success_tables filter_accept (some sample_db) query_repeated_table none rfl⟩

/-! ## Wildcards (C5, C6) -/

/-- C5, counterexample: for the FROM list `A` and the single bare `*` of kind
NOTAGG whose shape flag is off, `create` returns INVALID_ARGUMENT and binds no
field list, although the filter binder accepts. -/
theorem select_star_invalid_shape :
    collect_tables sample_db ["A"] [] [] = Except.ok ([tableA], [("A", tableA)]) ∧
    SelectStmt.create filter_accept (some sample_db)
      ⟨["A"], [⟨"", "*", AggregationType.NOTAGG, false⟩], []⟩ none =
      (RC.INVALID_ARGUMENT, none) :=
  ⟨rfl, rfl⟩

/-- C5 (amended): let the FROM list resolve to `tables` and `table_map`, let
the attribute list be the single valid-shape bare `*` of kind NOTAGG, and let
the filter binder succeed. Then `create` succeeds and the bound field list is,
for each table of `tables` in order (a table named twice contributes twice),
that table's fields from index `sys_field_num` on, in declaration order, each
with kind NOTAGG; for a single table it is exactly that table's fields after
the system fields. -/
theorem create_select_star {C F : Type} (fc : FilterCreate C F) (db : Db)
    (sql : SelectSqlNode C) (stmt0 : Option (SelectStmt F)) (tables : List Table)
    (table_map : TableMap) (a : RelAttrSqlNode) (filter_stmt : Option F)
    (ht : collect_tables db sql.relations [] [] = Except.ok (tables, table_map))
    (ha : sql.attributes = [a])
    (hv : a.ValidAgg = true)
    (hrel : is_blank a.relation_name = true)
    (hname : a.attribute_name = "*")
    (hk : a.aggr_type = AggregationType.NOTAGG)
    (hfilter : fc db (default_table tables) table_map sql.conditions =
      (RC.SUCCESS, filter_stmt)) :
    SelectStmt.create fc (some db) sql stmt0 =
      (RC.SUCCESS, some ⟨tables,
        tables.flatMap (fun table =>
          (table.table_meta.fields.drop table.table_meta.sys_field_num).map
            (fun f => Field.mk table (some f) AggregationType.NOTAGG)),
        filter_stmt, false⟩) ∧
    (∀ table, tables = [table] →
      SelectStmt.create fc (some db) sql stmt0 =
        (RC.SUCCESS, some ⟨[table],
          (table.table_meta.fields.drop table.table_meta.sys_field_num).map
            (fun f => Field.mk table (some f) AggregationType.NOTAGG),
          filter_stmt, false⟩)) := by
  have hbody : collect_query_fields tables table_map sql.attributes.reverse
      ⟨[], false, false⟩ = Except.ok ⟨tables.flatMap (fun table =>
          (table.table_meta.fields.drop table.table_meta.sys_field_num).map
            (fun f => Field.mk table (some f) AggregationType.NOTAGG)), false, true⟩ := by
    rw [ha, collect_query_fields_single]
    simp [attr_body, hv, hrel, hname, hk, wildcard_all_eq, table_expansion]
  have hmain := create_fields_ok fc db sql stmt0 tables table_map _ ht hbody
  rw [hfilter] at hmain
  simp only [ne_eq, not_true_eq_false, if_false] at hmain
  refine ⟨hmain, ?_⟩
  intro table htab
  rw [hmain, htab]
  simp

/-- C5, witness: `select * from A, B, A`. -/
theorem create_select_star_witness :
    SelectStmt.create filter_accept (some sample_db)
      ⟨["A", "B", "A"], [⟨"", "*", AggregationType.NOTAGG, true⟩], []⟩ none =
      (RC.SUCCESS, some ⟨[tableA, tableB, tableA],
        [⟨tableA, some ⟨"id", 1⟩, AggregationType.NOTAGG⟩,
         ⟨tableA, some ⟨"x", 2⟩, AggregationType.NOTAGG⟩,
         ⟨tableB, some ⟨"id", 1⟩, AggregationType.NOTAGG⟩,
         ⟨tableB, some ⟨"y", 3⟩, AggregationType.NOTAGG⟩,
         ⟨tableA, some ⟨"id", 1⟩, AggregationType.NOTAGG⟩,
         ⟨tableA, some ⟨"x", 2⟩, AggregationType.NOTAGG⟩],
        some 0, false⟩) :=
  (create_select_star filter_accept sample_db
    ⟨["A", "B", "A"], [⟨"", "*", AggregationType.NOTAGG, true⟩], []⟩ none
    [tableA, tableB, tableA] [("A", tableA), ("B", tableB)]
    ⟨"", "*", AggregationType.NOTAGG, true⟩ (some 0) rfl rfl rfl rfl rfl rfl rfl).1

/-- C6, counterexample: for the FROM list `A` and the single `count(*)` (bare
`*` of kind F_COUNT_ALL) whose shape flag is off, `create` returns
INVALID_ARGUMENT, although `A` has fields and the filter binder accepts. -/
theorem count_star_invalid_shape :
    collect_tables sample_db ["A"] [] [] = Except.ok ([tableA], [("A", tableA)]) ∧
    tableA.table_meta.fields ≠ [] ∧
    SelectStmt.create filter_accept (some sample_db)
      ⟨["A"], [⟨"", "*", AggregationType.F_COUNT_ALL, false⟩], []⟩ none =
      (RC.INVALID_ARGUMENT, none) :=
  ⟨rfl, by decide, rfl⟩

/-- C6 (amended): let the FROM list resolve to `tables` (each with at least
one field) and `table_map`, let the attribute list be the single valid-shape
bare `*` of kind F_COUNT_ALL, and let the filter binder succeed. Then `create`
succeeds with `is_aggr_ = true` and a bound field list with one field per
table, the i-th being (i-th table, that table's field 0, F_COUNT_ALL), where
field 0 is the table's first declared field whatever the number of columns;
for a single table the list has exactly one field. -/
theorem create_count_star {C F : Type} (fc : FilterCreate C F) (db : Db)
    (sql : SelectSqlNode C) (stmt0 : Option (SelectStmt F)) (tables : List Table)
    (table_map : TableMap) (a : RelAttrSqlNode) (filter_stmt : Option F)
    (ht : collect_tables db sql.relations [] [] = Except.ok (tables, table_map))
    (hfields : ∀ table ∈ tables, table.table_meta.fields ≠ [])
    (ha : sql.attributes = [a])
    (hv : a.ValidAgg = true)
    (hrel : is_blank a.relation_name = true)
    (hname : a.attribute_name = "*")
    (hk : a.aggr_type = AggregationType.F_COUNT_ALL)
    (hfilter : fc db (default_table tables) table_map sql.conditions =
      (RC.SUCCESS, filter_stmt)) :
    SelectStmt.create fc (some db) sql stmt0 =
      (RC.SUCCESS, some ⟨tables,
        tables.map (fun table =>
          Field.mk table (table.table_meta.field 0) AggregationType.F_COUNT_ALL),
        filter_stmt, true⟩) ∧
    (tables.map (fun table =>
      Field.mk table (table.table_meta.field 0) AggregationType.F_COUNT_ALL)).length =
        tables.length ∧
    (∀ table ∈ tables, ∃ f rest, table.table_meta.fields = f :: rest ∧
      table.table_meta.field 0 = some f) ∧
    (∀ table, tables = [table] →
      SelectStmt.create fc (some db) sql stmt0 =
        (RC.SUCCESS, some ⟨[table],
          [Field.mk table (table.table_meta.field 0) AggregationType.F_COUNT_ALL],
          filter_stmt, true⟩)) := by
  have hexp : tables.flatMap (fun table => table_expansion table AggregationType.F_COUNT_ALL) =
      tables.map (fun table =>
        Field.mk table (table.table_meta.field 0) AggregationType.F_COUNT_ALL) := by
    clear ht hfields hfilter
    induction tables with
    | nil => rfl
    | cons t rest ih =>
      rw [List.flatMap_cons, ih]
      simp [table_expansion, TableMeta.field, List.head?_eq_getElem?]
  have hbody : collect_query_fields tables table_map sql.attributes.reverse
      ⟨[], false, false⟩ = Except.ok ⟨tables.map (fun table =>
          Field.mk table (table.table_meta.field 0) AggregationType.F_COUNT_ALL),
        true, false⟩ := by
    rw [ha, collect_query_fields_single]
    simp [attr_body, hv, hrel, hname, hk, wildcard_all_eq, hexp]
  have hmain := create_fields_ok fc db sql stmt0 tables table_map _ ht hbody
  rw [hfilter] at hmain
  simp only [ne_eq, not_true_eq_false, if_false] at hmain
  refine ⟨hmain, by simp, ?_, ?_⟩
  · intro table htab
    cases hf : table.table_meta.fields with
    | nil => exact absurd hf (hfields table htab)
    | cons f rest => exact ⟨f, rest, rfl, by simp [TableMeta.field, hf]⟩
  · intro table htab
    rw [hmain, htab]
    simp

/-- C6, witness: `select count(*) from A, B`. -/
theorem create_count_star_witness :
    SelectStmt.create filter_accept (some sample_db)
      ⟨["A", "B"], [⟨"", "*", AggregationType.F_COUNT_ALL, true⟩], []⟩ none =
      (RC.SUCCESS, some ⟨[tableA, tableB],
        [⟨tableA, some ⟨"__trx", 0⟩, AggregationType.F_COUNT_ALL⟩,
         ⟨tableB, some ⟨"__trx", 0⟩, AggregationType.F_COUNT_ALL⟩],
        some 0, true⟩) :=
  (create_count_star filter_accept sample_db
    ⟨["A", "B"], [⟨"", "*", AggregationType.F_COUNT_ALL, true⟩], []⟩ none
    [tableA, tableB] [("A", tableA), ("B", tableB)]
    ⟨"", "*", AggregationType.F_COUNT_ALL, true⟩ (some 0) rfl (by decide) rfl rfl rfl rfl rfl
    rfl).1

/-! ## Named attributes (C7, C8, C9) -/

/-- C7: with a catalog present and a FROM list of two or more names that all
exist in the catalog, an attribute list made of one valid-shape attribute
without table qualifier whose name is not `*` makes `create` return
SCHEMA_FIELD_MISSING and leave `stmt` as it was, whatever the fields of the
tables are. -/
theorem create_unqualified_ambiguous {C F : Type} (fc : FilterCreate C F) (db : Db)
    (sql : SelectSqlNode C) (stmt0 : Option (SelectStmt F)) (a : RelAttrSqlNode)
    (hfrom : ∀ n ∈ sql.relations, db.find_table n ≠ none)
    (hlen : 2 ≤ sql.relations.length)
    (ha : sql.attributes = [a])
    (hv : a.ValidAgg = true)
    (hrel : is_blank a.relation_name = true)
    (hname : a.attribute_name ≠ "*") :
    SelectStmt.create fc (some db) sql stmt0 = (RC.SCHEMA_FIELD_MISSING, stmt0) := by
  obtain ⟨⟨tables, table_map⟩, ht⟩ := collect_tables_ok db sql.relations [] [] hfrom
  obtain ⟨-, h2, -⟩ := collect_tables_inv db sql.relations [] [] tables table_map ht
  have hl : tables.length = sql.relations.length := by
    have := congrArg List.length h2
    simpa using this
  apply create_fields_error fc db sql stmt0 tables table_map _ ht
  rw [ha, collect_query_fields_single]
  match tables, hl with
  | [], hl => simp at hl; omega
  | [t], hl => simp at hl; omega
  | t1 :: t2 :: rest, _ =>
    by_cases hagg : a.aggr_type = AggregationType.NOTAGG <;>
      simp [attr_body, hv, hrel, hname, hagg]

/-- C7, witness: `select x from A, B`, where `x` is a field of `A` only. -/
theorem create_unqualified_ambiguous_witness :
    tableA.table_meta.field_by_name "x" ≠ none ∧
    tableB.table_meta.field_by_name "x" = none ∧
    SelectStmt.create filter_accept (some sample_db)
      ⟨["A", "B"], [⟨"", "x", AggregationType.NOTAGG, true⟩], []⟩ none =
      (RC.SCHEMA_FIELD_MISSING, none) :=
  ⟨by decide, by decide,
    create_unqualified_ambiguous filter_accept sample_db
      ⟨["A", "B"], [⟨"", "x", AggregationType.NOTAGG, true⟩], []⟩ none
      ⟨"", "x", AggregationType.NOTAGG, true⟩ (by decide) (by decide) rfl rfl rfl (by decide)⟩

/-- C8: with a catalog present, a FROM list of the single name `n` that the
catalog resolves to `t`, and an attribute list made of one valid-shape
attribute `a` without table qualifier whose name is not `*`: if `t` has a
field of that name and the filter binder succeeds, `create` succeeds with the
table list `[t]` and exactly the one Bound Field (t, that field, the kind of
`a`); if `t` has no field of that name, `create` returns SCHEMA_FIELD_MISSING
and leaves `stmt` as it was. -/
theorem create_unqualified_single_table {C F : Type} (fc : FilterCreate C F) (db : Db)
    (sql : SelectSqlNode C) (stmt0 : Option (SelectStmt F)) (n : String) (t : Table)
    (a : RelAttrSqlNode)
    (hrels : sql.relations = [n])
    (hn : db.find_table n = some t)
    (ha : sql.attributes = [a])
    (hv : a.ValidAgg = true)
    (hrel : is_blank a.relation_name = true)
    (hname : a.attribute_name ≠ "*") :
    (∀ field_meta filter_stmt,
      t.table_meta.field_by_name a.attribute_name = some field_meta →
      fc db (some t) [(n, t)] sql.conditions = (RC.SUCCESS, filter_stmt) →
      SelectStmt.create fc (some db) sql stmt0 =
        (RC.SUCCESS, some ⟨[t], [Field.mk t (some field_meta) a.aggr_type], filter_stmt,
          decide (a.aggr_type ≠ AggregationType.NOTAGG)⟩)) ∧
    (t.table_meta.field_by_name a.attribute_name = none →
      SelectStmt.create fc (some db) sql stmt0 = (RC.SCHEMA_FIELD_MISSING, stmt0)) := by
  have ht : collect_tables db sql.relations [] [] = Except.ok ([t], [(n, t)]) := by
    rw [hrels]
    simp [collect_tables, hn, TableMap.insert, TableMap.find]
  constructor
  · intro field_meta filter_stmt hf hfilter
    have hbody : collect_query_fields [t] [(n, t)] sql.attributes.reverse
        ⟨[], false, false⟩ = Except.ok ⟨[Field.mk t (some field_meta) a.aggr_type],
          decide (a.aggr_type ≠ AggregationType.NOTAGG),
          decide (a.aggr_type = AggregationType.NOTAGG)⟩ := by
      rw [ha, collect_query_fields_single]
      by_cases hagg : a.aggr_type = AggregationType.NOTAGG <;>
        simp [attr_body, hv, hrel, hname, hagg, hf]
    have hmain := create_fields_ok fc db sql stmt0 [t] [(n, t)] _ ht hbody
    simp only [default_table] at hmain
    rw [hfilter] at hmain
    simpa using hmain
  · intro hf
    apply create_fields_error fc db sql stmt0 [t] [(n, t)] _ ht
    rw [ha, collect_query_fields_single]
    by_cases hagg : a.aggr_type = AggregationType.NOTAGG <;>
      simp [attr_body, hv, hrel, hname, hagg, hf]

/-- C8, witness: `select max(x) from A` binds the one field `A.x`, and
`select nosuch from A` fails. -/
theorem create_unqualified_single_table_witness :
    SelectStmt.create filter_accept (some sample_db)
      ⟨["A"], [⟨"", "x", AggregationType.F_MAX, true⟩], []⟩ none =
      (RC.SUCCESS, some ⟨[tableA], [⟨tableA, some ⟨"x", 2⟩, AggregationType.F_MAX⟩],
        some 0, true⟩) ∧
    SelectStmt.create filter_accept (some sample_db)
      ⟨["A"], [⟨"", "nosuch", AggregationType.NOTAGG, true⟩], []⟩ none =
      (RC.SCHEMA_FIELD_MISSING, none) :=
  ⟨(create_unqualified_single_table filter_accept sample_db
      ⟨["A"], [⟨"", "x", AggregationType.F_MAX, true⟩], []⟩ none "A" tableA
      ⟨"", "x", AggregationType.F_MAX, true⟩ rfl rfl rfl rfl rfl (by decide)).1
      ⟨"x", 2⟩ (some 0) rfl rfl,
   (create_unqualified_single_table filter_accept sample_db
      ⟨["A"], [⟨"", "nosuch", AggregationType.NOTAGG, true⟩], []⟩ none "A" tableA
      ⟨"", "nosuch", AggregationType.NOTAGG, true⟩ rfl rfl rfl rfl rfl (by decide)).2 rfl⟩

/-- C9: let the FROM list resolve to `tables` and `table_map`, and let the
attribute list be one valid-shape attribute `a` with a table qualifier that is
neither blank nor `*` and a field name that is not `*`. If the qualifier is not
a FROM name, `create` returns SCHEMA_FIELD_MISSING (also when the catalog holds
a table of that name). If it is a FROM name, the catalog resolves it to a table
`t`; when `t` has no field of that name `create` returns SCHEMA_FIELD_MISSING;
otherwise the attribute loop ends with exactly the one Bound Field (t, that
field, the kind of `a`), and `create` returns it in the statement when the
filter binder succeeds. -/
theorem create_qualified_attribute {C F : Type} (fc : FilterCreate C F) (db : Db)
    (sql : SelectSqlNode C) (stmt0 : Option (SelectStmt F)) (tables : List Table)
    (table_map : TableMap) (a : RelAttrSqlNode)
    (ht : collect_tables db sql.relations [] [] = Except.ok (tables, table_map))
    (ha : sql.attributes = [a])
    (hv : a.ValidAgg = true)
    (hrel : is_blank a.relation_name = false)
    (hstar : a.relation_name ≠ "*")
    (hname : a.attribute_name ≠ "*") :
    (a.relation_name ∉ sql.relations →
      SelectStmt.create fc (some db) sql stmt0 = (RC.SCHEMA_FIELD_MISSING, stmt0)) ∧
    (a.relation_name ∈ sql.relations →
      ∃ t, db.find_table a.relation_name = some t ∧
        (t.table_meta.field_by_name a.attribute_name = none →
          SelectStmt.create fc (some db) sql stmt0 = (RC.SCHEMA_FIELD_MISSING, stmt0)) ∧
        (∀ field_meta, t.table_meta.field_by_name a.attribute_name = some field_meta →
          collect_query_fields tables table_map sql.attributes.reverse ⟨[], false, false⟩ =
            Except.ok ⟨[Field.mk t (some field_meta) a.aggr_type],
              decide (a.aggr_type ≠ AggregationType.NOTAGG),
              decide (a.aggr_type = AggregationType.NOTAGG)⟩ ∧
          ∀ filter_stmt,
            fc db (default_table tables) table_map sql.conditions =
              (RC.SUCCESS, filter_stmt) →
            SelectStmt.create fc (some db) sql stmt0 =
              (RC.SUCCESS, some ⟨tables, [Field.mk t (some field_meta) a.aggr_type],
                filter_stmt, decide (a.aggr_type ≠ AggregationType.NOTAGG)⟩))) := by
  obtain ⟨h1, -, h3, -, -, -⟩ := collect_tables_inv db sql.relations [] [] tables table_map ht
  have hfind : TableMap.find table_map a.relation_name =
      if a.relation_name ∈ sql.relations then db.find_table a.relation_name else none := by
    rw [h3]
    simp [TableMap.find]
  constructor
  · intro hnot
    rw [if_neg hnot] at hfind
    apply create_fields_error fc db sql stmt0 tables table_map _ ht
    rw [ha, collect_query_fields_single]
    by_cases hagg : a.aggr_type = AggregationType.NOTAGG <;>
      simp [attr_body, hv, hrel, hstar, hagg, hfind]
  · intro hin
    rw [if_pos hin] at hfind
    cases hdb : db.find_table a.relation_name with
    | none => exact absurd hdb (h1 _ hin)
    | some t =>
      rw [hdb] at hfind
      refine ⟨t, rfl, ?_, ?_⟩
      · intro hf
        apply create_fields_error fc db sql stmt0 tables table_map _ ht
        rw [ha, collect_query_fields_single]
        by_cases hagg : a.aggr_type = AggregationType.NOTAGG <;>
          simp [attr_body, hv, hrel, hstar, hname, hagg, hfind, hf]
      · intro field_meta hf
        have hbody : collect_query_fields tables table_map sql.attributes.reverse
            ⟨[], false, false⟩ = Except.ok ⟨[Field.mk t (some field_meta) a.aggr_type],
              decide (a.aggr_type ≠ AggregationType.NOTAGG),
              decide (a.aggr_type = AggregationType.NOTAGG)⟩ := by
          rw [ha, collect_query_fields_single]
          by_cases hagg : a.aggr_type = AggregationType.NOTAGG <;>
            simp [attr_body, hv, hrel, hstar, hname, hagg, hfind, hf]
        refine ⟨hbody, ?_⟩
        intro filter_stmt hfilter
        have hmain := create_fields_ok fc db sql stmt0 tables table_map _ ht hbody
        rw [hfilter] at hmain
        simpa using hmain

/-- C9, witness: with `from A`, `select B.y` fails with SCHEMA_FIELD_MISSING
although the catalog holds `B`; `select A.nosuch` fails with
SCHEMA_FIELD_MISSING; `select sum(A.x)` binds the one field `A.x`. -/
theorem create_qualified_attribute_witness :
    sample_db.find_table "B" = some tableB ∧
    SelectStmt.create filter_accept (some sample_db)
      ⟨["A"], [⟨"B", "y", AggregationType.NOTAGG, true⟩], []⟩ none =
      (RC.SCHEMA_FIELD_MISSING, none) ∧
    SelectStmt.create filter_accept (some sample_db)
      ⟨["A"], [⟨"A", "nosuch", AggregationType.NOTAGG, true⟩], []⟩ none =
      (RC.SCHEMA_FIELD_MISSING, none) ∧
    SelectStmt.create filter_accept (some sample_db)
      ⟨["A"], [⟨"A", "x", AggregationType.F_SUM, true⟩], []⟩ none =
      (RC.SUCCESS, some ⟨[tableA], [⟨tableA, some ⟨"x", 2⟩, AggregationType.F_SUM⟩],
        some 0, true⟩) := by
  refine ⟨rfl, ?_, ?_, ?_⟩
  · exact (create_qualified_attribute filter_accept sample_db
      ⟨["A"], [⟨"B", "y", AggregationType.NOTAGG, true⟩], []⟩ none [tableA] [("A", tableA)]
      ⟨"B", "y", AggregationType.NOTAGG, true⟩ rfl rfl rfl rfl (by decide) (by decide)).1
      (by decide)
  · obtain ⟨t, hdb, hmiss, -⟩ := (create_qualified_attribute filter_accept sample_db
      ⟨["A"], [⟨"A", "nosuch", AggregationType.NOTAGG, true⟩], []⟩ none [tableA]
      [("A", tableA)] ⟨"A", "nosuch", AggregationType.NOTAGG, true⟩ rfl rfl rfl rfl
      (by decide) (by decide)).2 (by decide)
    have e : t = tableA := (Option.some.inj hdb).symm
    subst e
    exact hmiss rfl
  · obtain ⟨t, hdb, -, hok⟩ := (create_qualified_attribute filter_accept sample_db
      ⟨["A"], [⟨"A", "x", AggregationType.F_SUM, true⟩], []⟩ none [tableA]
      [("A", tableA)] ⟨"A", "x", AggregationType.F_SUM, true⟩ rfl rfl rfl rfl
      (by decide) (by decide)).2 (by decide)
    have e : t = tableA := (Option.some.inj hdb).symm
    subst e
    exact (hok ⟨"x", 2⟩ rfl).2 (some 0) rfl

/-! ## Order of the bound fields (C10) -/

/-- C10: when `create` returns SUCCESS, with `tables` and `table_map` the
result of the first loop, the bound field list of the statement is the
concatenation, over the attributes taken from the last to the first, of each
attribute's expansion (`attr_expansion`: one field for a named attribute, the
fields in table-list order then declaration order for a wildcard); and when no
attribute is a wildcard, the bound field list is, field by field, the bound
fields of the attributes in reverse source order. -/
theorem create_success_field_order {C F : Type} (fc : FilterCreate C F) (db : Option Db)
    (sql : SelectSqlNode C) (stmt0 : Option (SelectStmt F))
    (h : (SelectStmt.create fc db sql stmt0).1 = RC.SUCCESS) :
    ∃ d s table_map,
      db = some d ∧
      (SelectStmt.create fc db sql stmt0).2 = some s ∧
      collect_tables d sql.relations [] [] = Except.ok (s.tables_, table_map) ∧
      s.query_fields_ =
        sql.attributes.reverse.flatMap (fun a => attr_expansion s.tables_ table_map a) ∧
      ((∀ a ∈ sql.attributes, a.attribute_name ≠ "*") →
        s.query_fields_.length = sql.attributes.length ∧
        s.query_fields_.map some =
          sql.attributes.reverse.map (named_field s.tables_ table_map)) := by
  obtain ⟨d, tables, table_map, st, fs, hdb, ht, hf, -, hs⟩ :=
    create_success_inv fc db sql stmt0 h
  obtain ⟨-, -, -, -, hq⟩ := collect_query_fields_ok _ _ _ _ _ hf
  have hq2 : st.query_fields =
      sql.attributes.reverse.flatMap (fun a => attr_expansion tables table_map a) := by
    simpa using hq
  refine ⟨d, _, table_map, hdb, hs, ht, hq2, ?_⟩
  intro hall
  have hnamed := collect_query_fields_ok_named _ _ _ _ _ hf
  have hmap : st.query_fields.map some =
      sql.attributes.reverse.map (named_field tables table_map) := by
    rw [hq2]
    apply flatMap_named
    intro a ha
    have hn := hall a (List.mem_reverse.1 ha)
    exact ⟨hn, hnamed a ha hn⟩
  refine ⟨?_, hmap⟩
  have := congrArg List.length hmap
  simpa using this

/-- C10, witness: `select B.y, A.*, A.id from A, B` binds `A.id`, then the
fields of `A.*` in declaration order, then `B.y`;
`select B.y, A.x, A.id from A, B` binds `A.id, A.x, B.y`. -/
theorem create_success_field_order_witness :
    (SelectStmt.create filter_accept (some sample_db) query_three_attributes none).2.map
        (fun s => s.query_fields_) =
      some [⟨tableA, some ⟨"id", 1⟩, AggregationType.NOTAGG⟩,
        ⟨tableA, some ⟨"id", 1⟩, AggregationType.NOTAGG⟩,
        ⟨tableA, some ⟨"x", 2⟩, AggregationType.NOTAGG⟩,
        ⟨tableB, some ⟨"y", 3⟩, AggregationType.NOTAGG⟩] ∧
    (∃ d s table_map,
      some sample_db = some d ∧
      (SelectStmt.create filter_accept (some sample_db) query_three_attributes none).2 =
        some s ∧
      collect_tables d query_three_attributes.relations [] [] =
        Except.ok (s.tables_, table_map) ∧
      s.query_fields_ = query_three_attributes.attributes.reverse.flatMap
        (fun a => attr_expansion s.tables_ table_map a) ∧
      ((∀ a ∈ query_three_attributes.attributes, a.attribute_name ≠ "*") →
        s.query_fields_.length = query_three_attributes.attributes.length ∧
        s.query_fields_.map some =
          query_three_attributes.attributes.reverse.map (named_field s.tables_ table_map))) ∧
    (SelectStmt.create filter_accept (some sample_db) query_named_attributes none).2.map
        (fun s => s.query_fields_) =
      some [⟨tableA, some ⟨"id", 1⟩, AggregationType.NOTAGG⟩,
        ⟨tableA, some ⟨"x", 2⟩, AggregationType.NOTAGG⟩,
        ⟨tableB, some ⟨"y", 3⟩, AggregationType.NOTAGG⟩] ∧
    (∃ d s table_map,
      some sample_db = some d ∧
      (SelectStmt.create filter_accept (some sample_db) query_named_attributes none).2 =
        some s ∧
      collect_tables d query_named_attributes.relations [] [] =
        Except.ok (s.tables_, table_map) ∧
      s.query_fields_ = query_named_attributes.attributes.reverse.flatMap
        (fun a => attr_expansion s.tables_ table_map a) ∧
      ((∀ a ∈ query_named_attributes.attributes, a.attribute_name ≠ "*") →
        s.query_fields_.length = query_named_attributes.attributes.length ∧
        s.query_fields_.map some =
          query_named_attributes.attributes.reverse.map (named_field s.tables_ table_map))) :=
  ⟨rfl,
    create_success_field_order filter_accept (some sample_db) query_three_attributes none rfl,
    rfl,
    create_success_field_order filter_accept (some sample_db) query_named_attributes none rfl⟩

/-! ## Further lemmas on the tables and the expansions -/

theorem is_blank_star : is_blank "*" = false := by decide

theorem TableMap.find_mem (m : TableMap) (key : String) (t : Table)
    (h : TableMap.find m key = some t) : (key, t) ∈ m := by
  induction m with
  | nil => simp [TableMap.find] at h
  | cons p rest ih =>
    obtain ⟨k, v⟩ := p
    by_cases hk : k = key
    · simp only [TableMap.find, hk, if_true, Option.some.injEq] at h
      rw [hk, h]
      exact List.mem_cons_self _ _
    · simp only [TableMap.find, hk, if_false] at h
      exact List.mem_cons_of_mem _ (ih h)

theorem collect_tables_find_mem (db : Db) (rels : List String) (tables : List Table)
    (table_map : TableMap)
    (ht : collect_tables db rels [] [] = Except.ok (tables, table_map))
    (key : String) (t : Table) (h : TableMap.find table_map key = some t) :
    t ∈ tables ∧ key ∈ rels ∧ db.find_table key = some t := by
  obtain ⟨-, h2, -, -, -, h6⟩ := collect_tables_inv db rels [] [] tables table_map ht
  rcases h6 (key, t) (TableMap.find_mem _ _ _ h) with hq | ⟨hq1, hq2⟩
  · simp at hq
  · refine ⟨?_, hq1, hq2⟩
    have hm : some t ∈ tables.map some := by
      rw [h2]
      simp only [List.map_nil, List.nil_append, List.mem_map]
      exact ⟨key, hq1, hq2⟩
    simpa using hm

theorem default_table_mem (tables : List Table) (t : Table)
    (h : default_table tables = some t) : t ∈ tables := by
  unfold default_table at h
  split at h
  · simp only [Option.some.injEq] at h
    simp [h]
  · cases h

theorem field_by_name_mem (m : TableMeta) (name : String) (f : FieldMeta)
    (h : m.field_by_name name = some f) : f ∈ m.fields ∧ f.name = name := by
  unfold TableMeta.field_by_name at h
  refine ⟨List.mem_of_find?_eq_some h, ?_⟩
  simpa using List.find?_some h

theorem table_expansion_mem (table : Table) (aggr_type : AggregationType) (f : Field)
    (h : f ∈ table_expansion table aggr_type) :
    f.table = table ∧ f.aggr_type = aggr_type ∧
    (table.table_meta.fields ≠ [] → ∃ fm ∈ table.table_meta.fields, f.field_meta = some fm) := by
  unfold table_expansion at h
  split at h
  · simp only [List.mem_singleton] at h
    subst h
    refine ⟨rfl, rfl, ?_⟩
    intro hne
    cases hf : table.table_meta.fields with
    | nil => exact absurd hf hne
    | cons x rest => exact ⟨x, List.mem_cons_self _ _, by simp⟩
  · simp only [List.mem_map] at h
    obtain ⟨fm, hfm, rfl⟩ := h
    exact ⟨rfl, rfl, fun _ => ⟨fm, List.mem_of_mem_drop hfm, rfl⟩⟩

theorem attr_expansion_mem (tables : List Table) (table_map : TableMap)
    (hmap : ∀ key t, TableMap.find table_map key = some t → t ∈ tables)
    (a : RelAttrSqlNode) (f : Field) (h : f ∈ attr_expansion tables table_map a) :
    f.table ∈ tables ∧ f.aggr_type = a.aggr_type ∧
    (f.table.table_meta.fields ≠ [] →
      ∃ fm ∈ f.table.table_meta.fields, f.field_meta = some fm) := by
  unfold attr_expansion at h
  split at h
  · split at h
    · simp only [List.mem_flatMap] at h
      obtain ⟨t, ht, hf⟩ := h
      obtain ⟨e1, e2, e3⟩ := table_expansion_mem t a.aggr_type f hf
      rw [e1]
      exact ⟨ht, e2, e3⟩
    · split at h
      · simp at h
      · rename_i t hfind
        obtain ⟨e1, e2, e3⟩ := table_expansion_mem t a.aggr_type f h
        rw [e1]
        exact ⟨hmap _ _ hfind, e2, e3⟩
  · unfold named_field at h
    split at h
    · simp at h
    · rename_i t htab
      split at h
      · simp at h
      · rename_i fm hfm
        simp only [Option.toList, List.mem_singleton] at h
        subst h
        refine ⟨?_, rfl, fun _ => ⟨fm, (field_by_name_mem _ _ _ hfm).1, rfl⟩⟩
        unfold attr_table at htab
        split at htab
        · exact default_table_mem _ _ htab
        · exact hmap _ _ htab

theorem collect_tables_mem (db : Db) (rels : List String) (tables : List Table)
    (table_map : TableMap)
    (ht : collect_tables db rels [] [] = Except.ok (tables, table_map))
    (t : Table) (h : t ∈ tables) : ∃ n ∈ rels, db.find_table n = some t := by
  obtain ⟨-, h2, -⟩ := collect_tables_inv db rels [] [] tables table_map ht
  have hm : some t ∈ tables.map some := List.mem_map.2 ⟨t, h, rfl⟩
  rw [h2] at hm
  simpa using hm

theorem attr_body_star_qualifier (tables : List Table) (table_map : TableMap)
    (st : FieldLoop) (k : AggregationType) (v : Bool) (r : String)
    (hr : is_blank r = true) :
    attr_body tables table_map st ⟨"*", "*", k, v⟩ =
      attr_body tables table_map st ⟨r, "*", k, v⟩ := by
  cases v <;> simp [attr_body, hr, is_blank_star]

theorem collect_query_fields_congr (tables : List Table) (table_map : TableMap)
    (l1 l2 : List RelAttrSqlNode) (a b : RelAttrSqlNode) (st : FieldLoop)
    (h : ∀ st1, attr_body tables table_map st1 a = attr_body tables table_map st1 b) :
    collect_query_fields tables table_map (l1 ++ a :: l2) st =
      collect_query_fields tables table_map (l1 ++ b :: l2) st := by
  rw [collect_query_fields_append, collect_query_fields_append]
  cases collect_query_fields tables table_map l1 st with
  | error rc => rfl
  | ok st1 => simp only [collect_query_fields, h st1]

/-! ## A two-table projection (C11) -/

/-- C11: with a catalog present, the FROM list `A, B` of two names the catalog
resolves to `tA` and `tB`, and the attribute list `A.x, B.y` of two valid-shape
attributes of kind NOTAGG whose qualifiers are the two FROM names (neither blank
nor `*`) and whose names (not `*`) are fields of `tA` and of `tB`: when the
filter binder returns SUCCESS with a tree `p`, `create` returns SUCCESS and a
statement with the table list `[tA, tB]`, exactly the two Bound Fields over
`B.y` and `A.x`, both of kind NOTAGG, `is_aggr_ = false` and the filter `p`. -/
theorem create_two_table_projection {C F : Type} (fc : FilterCreate C F) (db : Db)
    (sql : SelectSqlNode C) (stmt0 : Option (SelectStmt F)) (nA nB : String) (tA tB : Table)
    (a1 a2 : RelAttrSqlNode) (fx fy : FieldMeta) (p : F)
    (hrels : sql.relations = [nA, nB])
    (hA : db.find_table nA = some tA)
    (hB : db.find_table nB = some tB)
    (hattrs : sql.attributes = [a1, a2])
    (hq1 : a1.relation_name = nA)
    (hq2 : a2.relation_name = nB)
    (hblankA : is_blank nA = false)
    (hblankB : is_blank nB = false)
    (hstarA : nA ≠ "*")
    (hstarB : nB ≠ "*")
    (hv1 : a1.ValidAgg = true)
    (hv2 : a2.ValidAgg = true)
    (hk1 : a1.aggr_type = AggregationType.NOTAGG)
    (hk2 : a2.aggr_type = AggregationType.NOTAGG)
    (hname1 : a1.attribute_name ≠ "*")
    (hname2 : a2.attribute_name ≠ "*")
    (hx : tA.table_meta.field_by_name a1.attribute_name = some fx)
    (hy : tB.table_meta.field_by_name a2.attribute_name = some fy)
    (hfilter : fc db none (TableMap.insert [(nA, tA)] nB tB) sql.conditions =
      (RC.SUCCESS, some p)) :
    SelectStmt.create fc (some db) sql stmt0 =
      (RC.SUCCESS, some ⟨[tA, tB],
        [Field.mk tB (some fy) AggregationType.NOTAGG,
         Field.mk tA (some fx) AggregationType.NOTAGG],
        some p, false⟩) := by
  have ht : collect_tables db sql.relations [] [] =
      Except.ok ([tA, tB], TableMap.insert [(nA, tA)] nB tB) := by
    rw [hrels]
    simp [collect_tables, hA, hB, TableMap.insert, TableMap.find]
  obtain ⟨-, -, h3, -, -, -⟩ := collect_tables_inv db sql.relations [] [] _ _ ht
  have hfA : TableMap.find (TableMap.insert [(nA, tA)] nB tB) nA = some tA := by
    rw [h3, hrels]
    simp [TableMap.find, hA]
  have hfB : TableMap.find (TableMap.insert [(nA, tA)] nB tB) nB = some tB := by
    rw [h3, hrels]
    simp [TableMap.find, hB]
  have hbody : collect_query_fields [tA, tB] (TableMap.insert [(nA, tA)] nB tB)
      sql.attributes.reverse ⟨[], false, false⟩ =
      Except.ok ⟨[Field.mk tB (some fy) AggregationType.NOTAGG,
        Field.mk tA (some fx) AggregationType.NOTAGG], false, true⟩ := by
    rw [hattrs]
    simp [collect_query_fields, attr_body, hv1, hv2, hk1, hk2, hq1, hq2, hblankA, hblankB,
      hstarA, hstarB, hname1, hname2, hfA, hfB, hx, hy]
  have hmain := create_fields_ok fc db sql stmt0 _ _ _ ht hbody
  simp only [default_table] at hmain
  rw [hfilter] at hmain
  simpa using hmain

/-- C11, witness: `select A.x, B.y from A, B where ...` with one condition. -/
theorem create_two_table_projection_witness :
    SelectStmt.create filter_accept (some sample_db)
      ⟨["A", "B"], [⟨"A", "x", AggregationType.NOTAGG, true⟩,
        ⟨"B", "y", AggregationType.NOTAGG, true⟩], [7]⟩ none =
      (RC.SUCCESS, some ⟨[tableA, tableB],
        [⟨tableB, some ⟨"y", 3⟩, AggregationType.NOTAGG⟩,
         ⟨tableA, some ⟨"x", 2⟩, AggregationType.NOTAGG⟩],
        some 1, false⟩) :=
  create_two_table_projection filter_accept sample_db
    ⟨["A", "B"], [⟨"A", "x", AggregationType.NOTAGG, true⟩,
      ⟨"B", "y", AggregationType.NOTAGG, true⟩], [7]⟩ none "A" "B" tableA tableB
    ⟨"A", "x", AggregationType.NOTAGG, true⟩ ⟨"B", "y", AggregationType.NOTAGG, true⟩
    ⟨"x", 2⟩ ⟨"y", 3⟩ 1 rfl rfl rfl rfl rfl rfl rfl rfl (by decide) (by decide) rfl rfl rfl rfl
    (by decide) (by decide) rfl rfl rfl

/-! ## The aggregate flag (C12) -/

/-- C12: when `create` returns SUCCESS, a statement `s` is assigned and
`s.is_aggr_` is true if and only if some attribute has a kind other than
NOTAGG, false if and only if every attribute has kind NOTAGG (so false for the
empty attribute list), and the attribute list does not hold both an attribute
of a kind other than NOTAGG and one of kind NOTAGG. -/
theorem create_success_is_aggr {C F : Type} (fc : FilterCreate C F) (db : Option Db)
    (sql : SelectSqlNode C) (stmt0 : Option (SelectStmt F))
    (h : (SelectStmt.create fc db sql stmt0).1 = RC.SUCCESS) :
    ∃ s,
      (SelectStmt.create fc db sql stmt0).2 = some s ∧
      (s.is_aggr_ = true ↔ ∃ a ∈ sql.attributes, a.aggr_type ≠ AggregationType.NOTAGG) ∧
      (s.is_aggr_ = false ↔ ∀ a ∈ sql.attributes, a.aggr_type = AggregationType.NOTAGG) ∧
      (sql.attributes = [] → s.is_aggr_ = false) ∧
      ¬ ((∃ a ∈ sql.attributes, a.aggr_type ≠ AggregationType.NOTAGG) ∧
        (∃ a ∈ sql.attributes, a.aggr_type = AggregationType.NOTAGG)) := by
  obtain ⟨d, tables, table_map, st, fs, -, -, hf, -, hs⟩ := create_success_inv fc db sql stmt0 h
  obtain ⟨-, hagg, hcommon, hexcl, -⟩ := collect_query_fields_ok _ _ _ _ _ hf
  have hagg2 : st.IsAgg = true ↔ ∃ a ∈ sql.attributes, a.aggr_type ≠ AggregationType.NOTAGG := by
    rw [hagg]
    simp
  have hcommon2 : st.IsCommon = true ↔
      ∃ a ∈ sql.attributes, a.aggr_type = AggregationType.NOTAGG := by
    rw [hcommon]
    simp
  have hfalse : st.IsAgg = false ↔
      ∀ a ∈ sql.attributes, a.aggr_type = AggregationType.NOTAGG := by
    rw [← Bool.not_eq_true, hagg2]
    push_neg
    rfl
  refine ⟨_, hs, hagg2, hfalse, ?_, ?_⟩
  · intro hnil
    show st.IsAgg = false
    rw [hfalse, hnil]
    simp
  · rintro ⟨h1, h2⟩
    obtain ⟨a, ha, hka⟩ := h1
    have hne : sql.attributes.reverse ≠ [] := by
      intro e
      rw [List.reverse_eq_nil_iff] at e
      rw [e] at ha
      simp at ha
    have := hexcl hne
    rw [hagg2.2 ⟨a, ha, hka⟩, hcommon2.2 h2] at this
    simp at this

/-- C12, witness: `select max(x), count(*) from A` binds with the flag on,
`select B.y, A.x, A.id from A, B` with the flag off. -/
theorem create_success_is_aggr_witness :
    (SelectStmt.create filter_accept (some sample_db) query_aggregates none).2.map
        (fun s => s.is_aggr_) = some true ∧
    (∃ s,
      (SelectStmt.create filter_accept (some sample_db) query_aggregates none).2 = some s ∧
      (s.is_aggr_ = true ↔
        ∃ a ∈ query_aggregates.attributes, a.aggr_type ≠ AggregationType.NOTAGG) ∧
      (s.is_aggr_ = false ↔
        ∀ a ∈ query_aggregates.attributes, a.aggr_type = AggregationType.NOTAGG) ∧
      (query_aggregates.attributes = [] → s.is_aggr_ = false) ∧
      ¬ ((∃ a ∈ query_aggregates.attributes, a.aggr_type ≠ AggregationType.NOTAGG) ∧
        (∃ a ∈ query_aggregates.attributes, a.aggr_type = AggregationType.NOTAGG))) ∧
    (SelectStmt.create filter_accept (some sample_db) query_named_attributes none).2.map
        (fun s => s.is_aggr_) = some false ∧
    (∃ s,
      (SelectStmt.create filter_accept (some sample_db) query_named_attributes none).2 =
        some s ∧
      (s.is_aggr_ = true ↔
        ∃ a ∈ query_named_attributes.attributes, a.aggr_type ≠ AggregationType.NOTAGG) ∧
      (s.is_aggr_ = false ↔
        ∀ a ∈ query_named_attributes.attributes, a.aggr_type = AggregationType.NOTAGG) ∧
      (query_named_attributes.attributes = [] → s.is_aggr_ = false) ∧
      ¬ ((∃ a ∈ query_named_attributes.attributes, a.aggr_type ≠ AggregationType.NOTAGG) ∧
        (∃ a ∈ query_named_attributes.attributes,
          a.aggr_type = AggregationType.NOTAGG))) :=
  ⟨rfl,
    create_success_is_aggr filter_accept (some sample_db) query_aggregates none rfl,
    rfl,
    create_success_is_aggr filter_accept (some sample_db) query_named_attributes none rfl⟩

/-! ## Where the bound fields come from (C13) -/

/-- C13, counterexample: `select count(*) from E`, where the table `E` has no
field, binds successfully, and its one Bound Field holds the pointer
`field(0)` of `E`, which is no field of `E`: no index is below the field count
0. -/
theorem count_star_over_table_without_fields :
    SelectStmt.create filter_accept (some empty_table_db)
      ⟨["E"], [⟨"", "*", AggregationType.F_COUNT_ALL, true⟩], []⟩ none =
      (RC.SUCCESS, some ⟨[table_empty],
        [⟨table_empty, none, AggregationType.F_COUNT_ALL⟩], some 0, true⟩) ∧
    table_empty.table_meta.field_num = 0 ∧
    table_empty.table_meta.fields = [] ∧
    table_empty.table_meta.field 0 = none :=
  ⟨rfl, rfl, rfl, rfl⟩

/-- C13 (amended): when `create` returns SUCCESS, every Bound Field of the
statement refers to a table of the statement's table list, which the catalog
returned for a FROM name, and, when that table has at least one field, to one
of that same table's declared fields: the field at some index below the field
count. -/
theorem create_success_fields_resolve {C F : Type} (fc : FilterCreate C F) (db : Option Db)
    (sql : SelectSqlNode C) (stmt0 : Option (SelectStmt F))
    (h : (SelectStmt.create fc db sql stmt0).1 = RC.SUCCESS) :
    ∃ d s,
      db = some d ∧
      (SelectStmt.create fc db sql stmt0).2 = some s ∧
      ∀ f ∈ s.query_fields_,
        f.table ∈ s.tables_ ∧
        (∃ n ∈ sql.relations, d.find_table n = some f.table) ∧
        (f.table.table_meta.fields ≠ [] →
          ∃ i fm, i < f.table.table_meta.field_num ∧
            f.table.table_meta.field i = some fm ∧ f.field_meta = some fm) := by
  obtain ⟨d, tables, table_map, st, fs, hdb, ht, hf, -, hs⟩ :=
    create_success_inv fc db sql stmt0 h
  obtain ⟨-, -, -, -, hq⟩ := collect_query_fields_ok _ _ _ _ _ hf
  refine ⟨d, _, hdb, hs, ?_⟩
  intro f hfmem
  have hfmem2 : f ∈ st.query_fields := hfmem
  rw [hq] at hfmem2
  simp only [List.nil_append, List.mem_flatMap] at hfmem2
  obtain ⟨a, -, hfa⟩ := hfmem2
  obtain ⟨e1, -, e3⟩ := attr_expansion_mem tables table_map
    (fun key t hk => (collect_tables_find_mem d sql.relations tables table_map ht key t hk).1)
    a f hfa
  refine ⟨e1, collect_tables_mem d sql.relations tables table_map ht _ e1, ?_⟩
  intro hne
  obtain ⟨fm, hfm, hfield⟩ := e3 hne
  obtain ⟨i, hi, hget⟩ := List.getElem_of_mem hfm
  exact ⟨i, fm, hi, by simp [TableMeta.field, List.getElem?_eq_getElem hi, hget], hfield⟩

/-- C13, witness: `select B.y, A.*, A.id from A, B`. -/
theorem create_success_fields_resolve_witness :
    (SelectStmt.create filter_accept (some sample_db) query_three_attributes none).1 =
      RC.SUCCESS ∧
    ∃ d s,
      some sample_db = some d ∧
      (SelectStmt.create filter_accept (some sample_db) query_three_attributes none).2 =
        some s ∧
      ∀ f ∈ s.query_fields_,
        f.table ∈ s.tables_ ∧
        (∃ n ∈ query_three_attributes.relations, d.find_table n = some f.table) ∧
        (f.table.table_meta.fields ≠ [] →
          ∃ i fm, i < f.table.table_meta.field_num ∧
            f.table.table_meta.field i = some fm ∧ f.field_meta = some fm) :=
  ⟨rfl,
    create_success_fields_resolve filter_accept (some sample_db) query_three_attributes none
      rfl⟩

/-! ## The filter binder and the catalog handle (C14, C15) -/

/-- C14: with a catalog present, when the FROM list resolves to `tables` and
`table_map` and the attribute loop ends without error in the state `st`, the
result of `create` is decided by the one value of the filter binder at the
catalog, the default table, `table_map` and the condition list: a code other
than SUCCESS is returned as it is and `stmt` is left as it was; on SUCCESS the
statement holds the binder's tree. The default table is the sole table of a
one-element table list and absent for every other length. -/
theorem create_filter_stage {C F : Type} (fc : FilterCreate C F) (db : Db)
    (sql : SelectSqlNode C) (stmt0 : Option (SelectStmt F)) (tables : List Table)
    (table_map : TableMap) (st : FieldLoop)
    (ht : collect_tables db sql.relations [] [] = Except.ok (tables, table_map))
    (hf : collect_query_fields tables table_map sql.attributes.reverse ⟨[], false, false⟩ =
      Except.ok st) :
    (∀ e filter_stmt,
      fc db (default_table tables) table_map sql.conditions = (e, filter_stmt) →
      e ≠ RC.SUCCESS →
      SelectStmt.create fc (some db) sql stmt0 = (e, stmt0)) ∧
    (∀ filter_stmt,
      fc db (default_table tables) table_map sql.conditions = (RC.SUCCESS, filter_stmt) →
      SelectStmt.create fc (some db) sql stmt0 =
        (RC.SUCCESS, some ⟨tables, st.query_fields, filter_stmt, st.IsAgg⟩)) ∧
    (∀ t, tables = [t] → default_table tables = some t) ∧
    (tables.length ≠ 1 → default_table tables = none) := by
  have hmain := create_fields_ok fc db sql stmt0 tables table_map st ht hf
  refine ⟨?_, ?_, ?_, ?_⟩
  · intro e filter_stmt hfc he
    rw [hmain, hfc]
    simp [he]
  · intro filter_stmt hfc
    rw [hmain, hfc]
    simp
  · intro t htab
    rw [htab]
    rfl
  · intro hlen
    match tables, hlen with
    | [], _ => rfl
    | [t], hlen => simp at hlen
    | t1 :: t2 :: rest, _ => rfl

/-- C14, witness: `select x from A where ...` with a filter binder that
rejects: the binder is called with the default table `A`, and its code is
returned. -/
theorem create_filter_stage_witness :
    filter_reject sample_db (some tableA) [("A", tableA)] [7] = (RC.OTHER 42, none) ∧
    SelectStmt.create filter_reject (some sample_db)
      ⟨["A"], [⟨"", "x", AggregationType.NOTAGG, true⟩], [7]⟩ none = (RC.OTHER 42, none) ∧
    SelectStmt.create filter_accept (some sample_db)
      ⟨["A"], [⟨"", "x", AggregationType.NOTAGG, true⟩], [7]⟩ none =
      (RC.SUCCESS, some ⟨[tableA], [⟨tableA, some ⟨"x", 2⟩, AggregationType.NOTAGG⟩],
        some 1, false⟩) :=
  ⟨rfl,
    (create_filter_stage filter_reject sample_db
      ⟨["A"], [⟨"", "x", AggregationType.NOTAGG, true⟩], [7]⟩ none [tableA] [("A", tableA)]
      ⟨[⟨tableA, some ⟨"x", 2⟩, AggregationType.NOTAGG⟩], false, true⟩ rfl rfl).1
      (RC.OTHER 42) none rfl (by decide),
    (create_filter_stage filter_accept sample_db
      ⟨["A"], [⟨"", "x", AggregationType.NOTAGG, true⟩], [7]⟩ none [tableA] [("A", tableA)]
      ⟨[⟨tableA, some ⟨"x", 2⟩, AggregationType.NOTAGG⟩], false, true⟩ rfl rfl).2.1
      (some 1) rfl⟩

/-- C15: without a catalog (`db` null) `create` returns INVALID_ARGUMENT and
leaves `stmt` as it was, whatever the filter binder, the FROM list, the
attribute list and the condition list are. -/
theorem create_null_db {C F : Type} (fc : FilterCreate C F) (sql : SelectSqlNode C)
    (stmt0 : Option (SelectStmt F)) :
    SelectStmt.create fc none sql stmt0 = (RC.INVALID_ARGUMENT, stmt0) := rfl

/-! ## Wildcards with an aggregate kind and invalid shapes (C16, C17) -/

/-- C16: let the FROM list resolve to `tables` and `table_map`, and let the
attribute list be one valid-shape attribute named `*` whose kind is neither
NOTAGG nor F_COUNT_ALL and whose table qualifier is blank (bare `*`) or a FROM
name (`t.*`). Then `create` returns INVALID_ARGUMENT and leaves `stmt` as it
was: no field is expanded. -/
theorem create_wildcard_bad_kind {C F : Type} (fc : FilterCreate C F) (db : Db)
    (sql : SelectSqlNode C) (stmt0 : Option (SelectStmt F)) (tables : List Table)
    (table_map : TableMap) (a : RelAttrSqlNode)
    (ht : collect_tables db sql.relations [] [] = Except.ok (tables, table_map))
    (ha : sql.attributes = [a])
    (hv : a.ValidAgg = true)
    (hname : a.attribute_name = "*")
    (hk1 : a.aggr_type ≠ AggregationType.NOTAGG)
    (hk2 : a.aggr_type ≠ AggregationType.F_COUNT_ALL)
    (hq : is_blank a.relation_name = true ∨ a.relation_name ∈ sql.relations) :
    SelectStmt.create fc (some db) sql stmt0 = (RC.INVALID_ARGUMENT, stmt0) := by
  apply create_fields_error fc db sql stmt0 tables table_map _ ht
  rw [ha, collect_query_fields_single]
  by_cases hb : is_blank a.relation_name = true
  · simp [attr_body, hv, hname, hk1, hk2, hb]
  · by_cases hs : a.relation_name = "*"
    · simp [attr_body, hv, hname, hk1, hk2, hs, is_blank_star]
    · have hin : a.relation_name ∈ sql.relations := hq.resolve_left hb
      obtain ⟨h1, -, h3, -, -, -⟩ :=
        collect_tables_inv db sql.relations [] [] tables table_map ht
      cases hdb : db.find_table a.relation_name with
      | none => exact absurd hdb (h1 _ hin)
      | some t =>
        have hfind : TableMap.find table_map a.relation_name = some t := by
          rw [h3]
          simp [TableMap.find, hin, hdb]
        simp [attr_body, hv, hname, hk1, hk2, hb, hs, hfind]

/-- C16, witness: `select sum(*) from A, B` and `select max(B.*) from A, B`. -/
theorem create_wildcard_bad_kind_witness :
    SelectStmt.create filter_accept (some sample_db)
      ⟨["A", "B"], [⟨"", "*", AggregationType.F_SUM, true⟩], []⟩ none =
      (RC.INVALID_ARGUMENT, none) ∧
    SelectStmt.create filter_accept (some sample_db)
      ⟨["A", "B"], [⟨"B", "*", AggregationType.F_MAX, true⟩], []⟩ none =
      (RC.INVALID_ARGUMENT, none) :=
  ⟨create_wildcard_bad_kind filter_accept sample_db
      ⟨["A", "B"], [⟨"", "*", AggregationType.F_SUM, true⟩], []⟩ none [tableA, tableB]
      [("A", tableA), ("B", tableB)] ⟨"", "*", AggregationType.F_SUM, true⟩
      rfl rfl rfl rfl (by decide) (by decide) (Or.inl rfl),
    create_wildcard_bad_kind filter_accept sample_db
      ⟨["A", "B"], [⟨"B", "*", AggregationType.F_MAX, true⟩], []⟩ none [tableA, tableB]
      [("A", tableA), ("B", tableB)] ⟨"B", "*", AggregationType.F_MAX, true⟩
      rfl rfl rfl rfl (by decide) (by decide) (Or.inr (by decide))⟩

/-- C17: let the FROM list resolve to `tables` and `table_map`, and let the
last attribute `a` of the attribute list (the first one visited) be flagged as
an invalid shape. Then `create` returns NESTED_AGGREGATION when the kind of `a`
is COMPOSITE, AGGREGATION_UNMATCHED when it is MULATTRS and INVALID_ARGUMENT for
every other kind, and leaves `stmt` as it was, whatever the names of `a` and
the attributes `P` before it are. -/
theorem create_invalid_shape_last {C F : Type} (fc : FilterCreate C F) (db : Db)
    (sql : SelectSqlNode C) (stmt0 : Option (SelectStmt F)) (tables : List Table)
    (table_map : TableMap) (P : List RelAttrSqlNode) (a : RelAttrSqlNode)
    (ht : collect_tables db sql.relations [] [] = Except.ok (tables, table_map))
    (ha : sql.attributes = P ++ [a])
    (hv : a.ValidAgg = false) :
    SelectStmt.create fc (some db) sql stmt0 =
      (if a.aggr_type = AggregationType.COMPOSITE then RC.NESTED_AGGREGATION
        else if a.aggr_type = AggregationType.MULATTRS then RC.AGGREGATION_UNMATCHED
        else RC.INVALID_ARGUMENT, stmt0) := by
  apply create_fields_error fc db sql stmt0 tables table_map _ ht
  rw [ha, List.reverse_append]
  simp only [List.reverse_cons, List.reverse_nil, List.nil_append, List.singleton_append,
    collect_query_fields]
  rw [attr_body_invalid_shape _ _ _ _ hv]
  by_cases h1 : a.aggr_type = AggregationType.COMPOSITE
  · simp [h1]
  · by_cases h2 : a.aggr_type = AggregationType.MULATTRS
    · simp [h2]
    · simp [h1, h2]

/-- C17, witness: after the plain attribute `nosuch`, an invalid-shape last
attribute of kind COMPOSITE, of kind MULATTRS, of kind F_SUM and of kind
NOTAGG. -/
theorem create_invalid_shape_last_witness :
    SelectStmt.create filter_accept (some sample_db)
      ⟨["A"], [⟨"", "nosuch", AggregationType.NOTAGG, true⟩,
        ⟨"Z", "q", AggregationType.COMPOSITE, false⟩], []⟩ none =
      (RC.NESTED_AGGREGATION, none) ∧
    SelectStmt.create filter_accept (some sample_db)
      ⟨["A"], [⟨"", "nosuch", AggregationType.NOTAGG, true⟩,
        ⟨"Z", "q", AggregationType.MULATTRS, false⟩], []⟩ none =
      (RC.AGGREGATION_UNMATCHED, none) ∧
    SelectStmt.create filter_accept (some sample_db)
      ⟨["A"], [⟨"", "nosuch", AggregationType.NOTAGG, true⟩,
        ⟨"Z", "q", AggregationType.F_SUM, false⟩], []⟩ none =
      (RC.INVALID_ARGUMENT, none) ∧
    SelectStmt.create filter_accept (some sample_db)
      ⟨["A"], [⟨"", "nosuch", AggregationType.F_MAX, true⟩,
        ⟨"", "x", AggregationType.NOTAGG, false⟩], []⟩ none =
      (RC.INVALID_ARGUMENT, none) :=
  ⟨create_invalid_shape_last filter_accept sample_db
      ⟨["A"], [⟨"", "nosuch", AggregationType.NOTAGG, true⟩,
        ⟨"Z", "q", AggregationType.COMPOSITE, false⟩], []⟩ none [tableA] [("A", tableA)]
      [⟨"", "nosuch", AggregationType.NOTAGG, true⟩]
      ⟨"Z", "q", AggregationType.COMPOSITE, false⟩ rfl rfl rfl,
    create_invalid_shape_last filter_accept sample_db
      ⟨["A"], [⟨"", "nosuch", AggregationType.NOTAGG, true⟩,
        ⟨"Z", "q", AggregationType.MULATTRS, false⟩], []⟩ none [tableA] [("A", tableA)]
      [⟨"", "nosuch", AggregationType.NOTAGG, true⟩]
      ⟨"Z", "q", AggregationType.MULATTRS, false⟩ rfl rfl rfl,
    create_invalid_shape_last filter_accept sample_db
      ⟨["A"], [⟨"", "nosuch", AggregationType.NOTAGG, true⟩,
        ⟨"Z", "q", AggregationType.F_SUM, false⟩], []⟩ none [tableA] [("A", tableA)]
      [⟨"", "nosuch", AggregationType.NOTAGG, true⟩]
      ⟨"Z", "q", AggregationType.F_SUM, false⟩ rfl rfl rfl,
    create_invalid_shape_last filter_accept sample_db
      ⟨["A"], [⟨"", "nosuch", AggregationType.F_MAX, true⟩,
        ⟨"", "x", AggregationType.NOTAGG, false⟩], []⟩ none [tableA] [("A", tableA)]
      [⟨"", "nosuch", AggregationType.F_MAX, true⟩]
      ⟨"", "x", AggregationType.NOTAGG, false⟩ rfl rfl rfl⟩

/-! ## Precedence of later attributes (C18) -/

/-- C18: let the FROM list `rels` resolve to `tables` and `table_map`, and let
the attribute loop over the attribute list `S` fail with the code `e`. Then for
every attribute list `P`, every condition list and every filter binder,
`create` on the attribute list `P ++ S` returns `e` and leaves `stmt` as it
was (with `P` empty: `create` on `S` itself returns `e`). -/
theorem create_error_of_later_attributes {C F : Type} (fc : FilterCreate C F) (db : Db)
    (rels : List String) (tables : List Table) (table_map : TableMap)
    (S : List RelAttrSqlNode) (e : RC)
    (ht : collect_tables db rels [] [] = Except.ok (tables, table_map))
    (hS : collect_query_fields tables table_map S.reverse ⟨[], false, false⟩ =
      Except.error e) :
    ∀ (P : List RelAttrSqlNode) (conditions : List C) (stmt0 : Option (SelectStmt F)),
      SelectStmt.create fc (some db) ⟨rels, P ++ S, conditions⟩ stmt0 = (e, stmt0) ∧
      SelectStmt.create fc (some db) ⟨rels, S, conditions⟩ stmt0 = (e, stmt0) := by
  intro P conditions stmt0
  constructor
  · apply create_fields_error fc db ⟨rels, P ++ S, conditions⟩ stmt0 tables table_map _ ht
    show collect_query_fields tables table_map (P ++ S).reverse ⟨[], false, false⟩ =
      Except.error e
    rw [List.reverse_append, collect_query_fields_append, hS]
  · exact create_fields_error fc db ⟨rels, S, conditions⟩ stmt0 tables table_map _ ht hS

/-- C18, witness: `select max(id), nosuch from A` fails with
SCHEMA_FIELD_MISSING, and so does the list with an invalid-shape attribute and
an aggregate put in front. -/
theorem create_error_of_later_attributes_witness :
    SelectStmt.create filter_accept (some sample_db)
      ⟨["A"], [⟨"", "q", AggregationType.COMPOSITE, false⟩,
        ⟨"", "x", AggregationType.F_MAX, true⟩,
        ⟨"", "id", AggregationType.F_MAX, true⟩,
        ⟨"", "nosuch", AggregationType.NOTAGG, true⟩], []⟩ none =
      (RC.SCHEMA_FIELD_MISSING, none) ∧
    SelectStmt.create filter_accept (some sample_db)
      ⟨["A"], [⟨"", "id", AggregationType.F_MAX, true⟩,
        ⟨"", "nosuch", AggregationType.NOTAGG, true⟩], []⟩ none =
      (RC.SCHEMA_FIELD_MISSING, none) :=
  create_error_of_later_attributes filter_accept sample_db ["A"] [tableA] [("A", tableA)]
    [⟨"", "id", AggregationType.F_MAX, true⟩, ⟨"", "nosuch", AggregationType.NOTAGG, true⟩]
    RC.SCHEMA_FIELD_MISSING rfl rfl
    [⟨"", "q", AggregationType.COMPOSITE, false⟩, ⟨"", "x", AggregationType.F_MAX, true⟩]
    [] none

/-! ## Kinds of the bound fields (C19) -/

/-- C19: when `create` returns SUCCESS, every Bound Field of the statement has
the kind of one of the attributes, and the kinds agree with the flag: if
`is_aggr_` is true every Bound Field has a kind other than NOTAGG, if it is
false every Bound Field has kind NOTAGG. -/
theorem create_success_field_kinds {C F : Type} (fc : FilterCreate C F) (db : Option Db)
    (sql : SelectSqlNode C) (stmt0 : Option (SelectStmt F))
    (h : (SelectStmt.create fc db sql stmt0).1 = RC.SUCCESS) :
    ∃ s,
      (SelectStmt.create fc db sql stmt0).2 = some s ∧
      (∀ f ∈ s.query_fields_, ∃ a ∈ sql.attributes, f.aggr_type = a.aggr_type) ∧
      (s.is_aggr_ = true → ∀ f ∈ s.query_fields_, f.aggr_type ≠ AggregationType.NOTAGG) ∧
      (s.is_aggr_ = false → ∀ f ∈ s.query_fields_, f.aggr_type = AggregationType.NOTAGG) := by
  obtain ⟨d, tables, table_map, st, fs, -, ht, hf, -, hs⟩ :=
    create_success_inv fc db sql stmt0 h
  obtain ⟨-, hagg, hcommon, hexcl, hq⟩ := collect_query_fields_ok _ _ _ _ _ hf
  have hkind : ∀ f ∈ st.query_fields, ∃ a ∈ sql.attributes, f.aggr_type = a.aggr_type := by
    intro f hfmem
    rw [hq] at hfmem
    simp only [List.nil_append, List.mem_flatMap] at hfmem
    obtain ⟨a, ha, hfa⟩ := hfmem
    obtain ⟨-, e2, -⟩ := attr_expansion_mem tables table_map
      (fun key t hk => (collect_tables_find_mem d sql.relations tables table_map ht key t hk).1)
      a f hfa
    exact ⟨a, List.mem_reverse.1 ha, e2⟩
  refine ⟨_, hs, hkind, ?_, ?_⟩
  · intro htrue f hfmem
    have htrue2 : st.IsAgg = true := htrue
    obtain ⟨a, ha, hfa⟩ := hkind f hfmem
    have hne : sql.attributes.reverse ≠ [] := by
      intro e
      rw [List.reverse_eq_nil_iff] at e
      rw [e] at ha
      simp at ha
    have hx := hexcl hne
    rw [htrue2] at hx
    have hc : st.IsCommon = false := by simpa using hx
    intro hnot
    have : st.IsCommon = true :=
      hcommon.2 (Or.inr ⟨a, List.mem_reverse.2 ha, hfa ▸ hnot⟩)
    rw [hc] at this
    cases this
  · intro hfalse f hfmem
    have hfalse2 : st.IsAgg = false := hfalse
    obtain ⟨a, ha, hfa⟩ := hkind f hfmem
    by_contra hnot
    have : st.IsAgg = true :=
      hagg.2 (Or.inr ⟨a, List.mem_reverse.2 ha, hfa ▸ hnot⟩)
    rw [hfalse2] at this
    cases this

/-- C19, witness: `select max(x), count(*) from A`. -/
theorem create_success_field_kinds_witness :
    (SelectStmt.create filter_accept (some sample_db) query_aggregates none).2.map
        (fun s => (s.is_aggr_, s.query_fields_.map (fun f => f.aggr_type))) =
      some (true, [AggregationType.F_COUNT_ALL, AggregationType.F_MAX]) ∧
    ∃ s,
      (SelectStmt.create filter_accept (some sample_db) query_aggregates none).2 = some s ∧
      (∀ f ∈ s.query_fields_, ∃ a ∈ query_aggregates.attributes, f.aggr_type = a.aggr_type) ∧
      (s.is_aggr_ = true → ∀ f ∈ s.query_fields_, f.aggr_type ≠ AggregationType.NOTAGG) ∧
      (s.is_aggr_ = false → ∀ f ∈ s.query_fields_, f.aggr_type = AggregationType.NOTAGG) :=
  ⟨rfl, create_success_field_kinds filter_accept (some sample_db) query_aggregates none rfl⟩

/-! ## The qualifier `*` (C20) -/

/-- C20: let the FROM list `rels` resolve to `tables` and `table_map`. A
valid-shape attribute `*.f` with `f` other than `*`, alone in the attribute
list, makes `create` return SCHEMA_FIELD_MISSING whatever its kind is. An
attribute `*.*` anywhere in an attribute list gives the same result of `create`
as the bare `*` of the same kind in its place: alone and valid-shape, with kind
NOTAGG or F_COUNT_ALL the attribute loop ends with the expansion over all the
tables of the table list (which `create` returns when the filter binder
succeeds), and with any other kind `create` returns INVALID_ARGUMENT. The loop body of an attribute qualified by `*` does not
depend on the lookup table. -/
theorem create_star_qualifier {C F : Type} (fc : FilterCreate C F) (db : Db)
    (rels : List String) (conditions : List C) (stmt0 : Option (SelectStmt F))
    (tables : List Table) (table_map : TableMap)
    (ht : collect_tables db rels [] [] = Except.ok (tables, table_map)) :
    (∀ f k, f ≠ "*" →
      SelectStmt.create fc (some db) ⟨rels, [⟨"*", f, k, true⟩], conditions⟩ stmt0 =
        (RC.SCHEMA_FIELD_MISSING, stmt0)) ∧
    (∀ P S k v r, is_blank r = true →
      SelectStmt.create fc (some db) ⟨rels, P ++ ⟨"*", "*", k, v⟩ :: S, conditions⟩ stmt0 =
        SelectStmt.create fc (some db) ⟨rels, P ++ ⟨r, "*", k, v⟩ :: S, conditions⟩ stmt0) ∧
    (∀ k, k = AggregationType.NOTAGG ∨ k = AggregationType.F_COUNT_ALL →
      collect_query_fields tables table_map [⟨"*", "*", k, true⟩].reverse ⟨[], false, false⟩ =
        Except.ok ⟨tables.flatMap (fun table => table_expansion table k),
          decide (k ≠ AggregationType.NOTAGG), decide (k = AggregationType.NOTAGG)⟩) ∧
    (∀ k filter_stmt, k = AggregationType.NOTAGG ∨ k = AggregationType.F_COUNT_ALL →
      fc db (default_table tables) table_map conditions = (RC.SUCCESS, filter_stmt) →
      SelectStmt.create fc (some db) ⟨rels, [⟨"*", "*", k, true⟩], conditions⟩ stmt0 =
        (RC.SUCCESS, some ⟨tables, tables.flatMap (fun table => table_expansion table k),
          filter_stmt, decide (k ≠ AggregationType.NOTAGG)⟩)) ∧
    (∀ k, k ≠ AggregationType.NOTAGG → k ≠ AggregationType.F_COUNT_ALL →
      SelectStmt.create fc (some db) ⟨rels, [⟨"*", "*", k, true⟩], conditions⟩ stmt0 =
        (RC.INVALID_ARGUMENT, stmt0)) ∧
    (∀ table_map2 st a, a.relation_name = "*" →
      attr_body tables table_map st a = attr_body tables table_map2 st a) := by
  have hall : ∀ k, k = AggregationType.NOTAGG ∨ k = AggregationType.F_COUNT_ALL →
      collect_query_fields tables table_map [⟨"*", "*", k, true⟩].reverse ⟨[], false, false⟩ =
        Except.ok ⟨tables.flatMap (fun table => table_expansion table k),
          decide (k ≠ AggregationType.NOTAGG), decide (k = AggregationType.NOTAGG)⟩ := by
    intro k hk
    rw [collect_query_fields_single]
    rcases hk with rfl | rfl <;>
      simp [attr_body, is_blank_star, wildcard_all_eq]
  refine ⟨?_, ?_, hall, ?_, ?_, ?_⟩
  · intro f k hf
    apply create_fields_error fc db _ stmt0 tables table_map _ ht
    show collect_query_fields tables table_map [⟨"*", f, k, true⟩].reverse _ = _
    rw [collect_query_fields_single]
    by_cases hk : k = AggregationType.NOTAGG <;>
      simp [attr_body, is_blank_star, hf, hk]
  · intro P S k v r hr
    simp only [SelectStmt.create, ht, List.reverse_append, List.reverse_cons,
      List.append_assoc, List.singleton_append]
    rw [collect_query_fields_congr tables table_map S.reverse P.reverse _ _ _
      (fun st1 => attr_body_star_qualifier tables table_map st1 k v r hr)]
  · intro k filter_stmt hk hfilter
    have hmain := create_fields_ok fc db ⟨rels, [⟨"*", "*", k, true⟩], conditions⟩ stmt0
      tables table_map _ ht (hall k hk)
    simp only [] at hmain
    rw [hfilter] at hmain
    simpa using hmain
  · intro k hk1 hk2
    apply create_fields_error fc db _ stmt0 tables table_map _ ht
    show collect_query_fields tables table_map [⟨"*", "*", k, true⟩].reverse _ = _
    rw [collect_query_fields_single]
    simp [attr_body, is_blank_star, hk1, hk2]
  · intro table_map2 st a ha
    unfold attr_body
    simp [ha, is_blank_star]

/-- C20, witness: in a catalog that stores a table under the name `*`, with
`from A, *`: `select sum(*.y)` fails with SCHEMA_FIELD_MISSING although that
table has a field `y`; `select *.*` binds like `select *`, over both tables;
`select sum(*.*)` fails with INVALID_ARGUMENT. -/
theorem create_star_qualifier_witness :
    TableMap.find [("A", tableA), ("*", tableB)] "*" = some tableB ∧
    SelectStmt.create filter_accept (some star_db)
      ⟨["A", "*"], [⟨"*", "y", AggregationType.F_SUM, true⟩], []⟩ none =
      (RC.SCHEMA_FIELD_MISSING, none) ∧
    SelectStmt.create filter_accept (some star_db)
      ⟨["A", "*"], [] ++ [⟨"*", "*", AggregationType.NOTAGG, true⟩], []⟩ none =
      SelectStmt.create filter_accept (some star_db)
        ⟨["A", "*"], [] ++ [⟨"", "*", AggregationType.NOTAGG, true⟩], []⟩ none ∧
    SelectStmt.create filter_accept (some star_db)
      ⟨["A", "*"], [⟨"*", "*", AggregationType.NOTAGG, true⟩], []⟩ none =
      (RC.SUCCESS, some ⟨[tableA, tableB],
        [⟨tableA, some ⟨"id", 1⟩, AggregationType.NOTAGG⟩,
         ⟨tableA, some ⟨"x", 2⟩, AggregationType.NOTAGG⟩,
         ⟨tableB, some ⟨"id", 1⟩, AggregationType.NOTAGG⟩,
         ⟨tableB, some ⟨"y", 3⟩, AggregationType.NOTAGG⟩],
        some 0, false⟩) ∧
    SelectStmt.create filter_accept (some star_db)
      ⟨["A", "*"], [⟨"*", "*", AggregationType.F_SUM, true⟩], []⟩ none =
      (RC.INVALID_ARGUMENT, none) :=
  ⟨rfl,
    (create_star_qualifier filter_accept star_db ["A", "*"] [] none [tableA, tableB]
      [("A", tableA), ("*", tableB)] rfl).1 "y" AggregationType.F_SUM (by decide),
    (create_star_qualifier filter_accept star_db ["A", "*"] [] none [tableA, tableB]
      [("A", tableA), ("*", tableB)] rfl).2.1 [] [] AggregationType.NOTAGG true "" rfl,
    rfl,
    (create_star_qualifier filter_accept star_db ["A", "*"] [] none [tableA, tableB]
      [("A", tableA), ("*", tableB)] rfl).2.2.2.2.1 AggregationType.F_SUM (by decide)
      (by decide)⟩

end MiniSB
